import Mathlib

/-!
Verification development for the AutoFlowAI repository.

This file gives a shallow embedding, in Lean 4, of the core data model and
operations of the AutoFlowAI pipeline generator:

* schedule-string parsing and trigger derivation
  (src/pipeline_generator/deploy_pipeline.py),
* schedule normalization and context resolution (src/app.py),
* the prerequisite reconciler and auto-fixer
  (src/pipeline_generator/prereq_checker.py),
* the pipeline artifact generator (src/pipeline_generator/adf_generator.py)
  and the structural validator (src/pipeline_generator/deploy_simulator.py),
* the deployment orchestrator (src/pipeline_generator/deploy_pipeline.py).

Python strings are modelled as Lean `String` values, with the handful of
string primitives the source uses (strip, lower, split, join, startswith,
substring search, int conversion) re-implemented over the character list so
that every definition evaluates inside the kernel.  Python `None` and absent
dictionary keys are modelled with `Option`; Python truthiness of optional
strings is `truthy`; the Python `or` fallback chain is `pyOr`.  Remote Azure
calls are modelled by explicit oracle structures whose fields record, for
each remote operation the code may perform, either its successful result or
the exception it raises; a raised and uncaught Python exception is an
`Except.error` result.
-/

namespace AutoFlowAI

/-! ## String primitives -/

/-- Whitespace test used by `strip` (ASCII whitespace). -/
def chIsWs (c : Char) : Bool :=
  c = ' ' || c = '\t' || c = '\n' || c = '\r'

/-- Model of Python `str.strip()`. -/
def strTrim (s : String) : String :=
  ⟨((s.data.dropWhile chIsWs).reverse.dropWhile chIsWs).reverse⟩

/-- Model of Python `str.lower()` (ASCII). -/
def strLower (s : String) : String :=
  ⟨s.data.map Char.toLower⟩

/-- Drop the first `n` characters of a string. -/
def strDrop (n : Nat) (s : String) : String :=
  ⟨s.data.drop n⟩

/-- Starts-with test on character lists. -/
def listStartsWith : List Char → List Char → Bool
  | [], _ => true
  | _, [] => false
  | a :: x, b :: y => a = b && listStartsWith x y

/-- Model of Python `str.startswith(p)`. -/
def strStartsWith (p s : String) : Bool :=
  listStartsWith p.data s.data

/-- Split a character list at the first occurrence of `c`
(model of Python `split(c, 1)` when it yields two parts). -/
def splitFirst (c : Char) : List Char → Option (List Char × List Char)
  | [] => none
  | a :: rest =>
      if a = c then some ([], rest)
      else
        match splitFirst c rest with
        | some (x, y) => some (a :: x, y)
        | none => none

/-- Accumulator loop for `splitAll`. -/
def splitAllAux (sep : Char) : List Char → List Char → List (List Char)
  | [], acc => [acc.reverse]
  | c :: rest, acc =>
      if c = sep then acc.reverse :: splitAllAux sep rest []
      else splitAllAux sep rest (c :: acc)

/-- Split a character list at every occurrence of `sep`
(model of Python `split(sep)`). -/
def splitAll (sep : Char) (l : List Char) : List (List Char) :=
  splitAllAux sep l []

/-- Model of Python `sep.join(parts)`. -/
def strJoin (sep : String) : List String → String
  | [] => ""
  | [x] => x
  | x :: rest => x ++ sep ++ strJoin sep rest

/-- Model of Python `s.split(c)` on strings. -/
def strSplit (c : Char) (s : String) : List String :=
  (splitAll c s.data).map (fun l => ⟨l⟩)

/-- Substring containment on character lists. -/
def listHasSub (p : List Char) : List Char → Bool
  | [] => p.isEmpty
  | c :: rest => listStartsWith p (c :: rest) || listHasSub p rest

/-- Model of Python `p in s` on strings. -/
def strHasSub (p s : String) : Bool :=
  listHasSub p.data s.data

/-! ## Python value conventions -/

/-- Truthiness of an optional string: `None` and the empty string are falsy. -/
def truthy : Option String → Bool
  | none => false
  | some s => !s.isEmpty

/-- Model of the Python `a or b` fallback on optional strings. -/
def pyOr (a b : Option String) : Option String :=
  if truthy a then a else b

/-- Model of the Python `a or b` fallback when the right operand is a plain
string constant. -/
def pyOrS : Option String → String → String
  | some s, b => if s = "" then b else s
  | none, b => b

/-- Read an optional string as a plain string (the value is known truthy at
every use site, mirroring how the source uses the resolved value). -/
def getS (a : Option String) : String := a.getD ""

/-! ## Python int() -/

/-- Digit-or-underscore run check after the first digit: underscores must be
single and must sit between digits (Python numeric literal rule). -/
def digitsUnderOk : List Char → Bool
  | [] => true
  | c :: rest =>
      if c = '_' then
        match rest with
        | [] => false
        | d :: rest2 => d.isDigit && digitsUnderOk rest2
      else c.isDigit && digitsUnderOk rest

/-- Numeric value of a digit run (underscores skipped). -/
def digitsVal (l : List Char) : Nat :=
  (l.filter (fun c => c ≠ '_')).foldl (fun n c => 10 * n + (c.toNat - 48)) 0

/-- Unsigned part of Python `int(str)`. -/
def pyIntDigits (l : List Char) : Option Nat :=
  match l with
  | [] => none
  | c :: _ => if c.isDigit && digitsUnderOk l then some (digitsVal l) else none

/-- Model of Python `int(str)`: optional surrounding whitespace, optional
sign, then a digit run with optional single underscores between digits. -/
def pyInt (s : String) : Option Int :=
  match (strTrim s).data with
  | [] => none
  | c :: rest =>
      if c = '-' then (pyIntDigits rest).map (fun n => -(n : Int))
      else if c = '+' then (pyIntDigits rest).map (fun n => (n : Int))
      else (pyIntDigits (c :: rest)).map (fun n => (n : Int))

/-! ## Schedule-string parsing (deploy_pipeline.py) -/

/-- Parsed recurring-trigger specification. -/
structure TriggerSpec where
  kind : String
  hour : Int
  minute : Int
deriving DecidableEq, Repr

/-- Inner body of the `daily@HH:MM` branch: split the suffix at the first
colon and convert both sides with Python `int`; `none` models the branch in
which the `try` block raises and the code falls back to midnight. -/
def parse_two_ints (s : String) : Option (Int × Int) :=
  match splitFirst ':' s.data with
  | none => none
  | some (h, m) =>
      match pyInt ⟨h⟩, pyInt ⟨m⟩ with
      | some a, some b => some (a, b)
      | _, _ => none

/-- Model of `_parse_schedule_string` in deploy_pipeline.py. -/
def parse_schedule_string (s : String) : Option TriggerSpec :=
  if s = "" then none
  else
    let t := strLower (strTrim s)
    if t ∈ (["once", "manual", "off", "disabled", "none"] : List String) then none
    else if t = "daily" then some ⟨"daily", 0, 0⟩
    else if strStartsWith "daily@" t then
      match parse_two_ints (strDrop 6 t) with
      | some (hv, mv) => some ⟨"daily", max 0 (min 23 hv), max 0 (min 59 mv)⟩
      | none => some ⟨"daily", 0, 0⟩
    else none

/-! ## Schedule normalization (app.py) -/

/-- Value of the `schedule` field of an LLM config: either already a string
or an object with optional `frequency` and `time` subfields. -/
inductive ScheduleVal where
  | str (s : String)
  | obj (frequency : Option String) (time : Option String)
deriving DecidableEq, Repr

/-- Model of `normalize_schedule_in_config` in app.py, restricted to the one
field the function reads and writes (`cfg.get("schedule")`);
`none` models a config without a schedule key. -/
def normalize_schedule_in_config : Option ScheduleVal → Option ScheduleVal
  | some (.obj f t) =>
      let freq := strTrim (pyOrS f "once")
      let tm := strTrim (pyOrS t "")
      some (.str (if tm ≠ "" then freq ++ "@" ++ tm else freq))
  | v => v

/-! ## Context resolution (app.py merge_context)

A request payload, the process environment and the two persisted profile
files are each modelled as a partial map from keys to string values
(`none` marks an absent key or an unset environment variable). -/

/-- Entry `blob_ls` of the module-level DEFAULTS table of app.py, computed
from the process environment with `os.getenv(key, default)` semantics. -/
def DEFAULTS_blob_ls (env : String → Option String) : String :=
  (env "ADF_BLOB_LINKED_SERVICE").getD "AzureBlobStorageLinkedService"

/-- Entry `snowflake_ls` of the module-level DEFAULTS table of app.py. -/
def DEFAULTS_snowflake_ls (env : String → Option String) : String :=
  (env "ADF_SNOWFLAKE_LINKED_SERVICE").getD "Snowflake_LS"

/-- Model of `merge_context` in app.py.  The result maps each key to the
value the resolved context carries for it: a payload value if the key is
present there (`dict.setdefault` keeps it), otherwise the coalesced
environment/profile value the function writes for that key.  Keys the
function never writes resolve to the payload alone. -/
def merge_context (payload env acct uc : String → Option String) :
    String → Option String :=
  fun k =>
    match payload k with
    | some v => some v
    | none =>
        if k = "subscription_id" then
          pyOr (env "AZURE_SUBSCRIPTION_ID") (acct "subscription_id")
        else if k = "resource_group" then
          pyOr (env "AZURE_RESOURCE_GROUP") (acct "resource_group")
        else if k = "factory_name" then
          pyOr (env "AZURE_FACTORY_NAME") (acct "factory_name")
        else if k = "storage_account_name" then
          pyOr (env "STORAGE_ACCOUNT_NAME") (acct "storage_account_name")
        else if k = "storage_account_key" then
          env "STORAGE_ACCOUNT_KEY"
        else if k = "container" then
          pyOr (env "BLOB_CONTAINER") (uc "blob_container")
        else if k = "blob_name" then
          pyOr (env "BLOB_NAME") (uc "blob_name")
        else if k = "snowflake_schema" then
          pyOr (env "SNOWFLAKE_SCHEMA") (uc "snowflake_schema")
        else if k = "snowflake_table" then
          pyOr (env "SNOWFLAKE_TABLE") (uc "snowflake_table")
        else if k = "blob_ls_name" then
          pyOr (env "ADF_BLOB_LINKED_SERVICE") (some (DEFAULTS_blob_ls env))
        else if k = "snowflake_ls_name" then
          pyOr (env "ADF_SNOWFLAKE_LINKED_SERVICE")
            (some (DEFAULTS_snowflake_ls env))
        else if k = "snowflake_connection_string" then
          env "SNOWFLAKE_CONNECTION_STRING"
        else none

/-- Table of the profile-backed (non-secret) context keys: context key,
environment variable, which profile file backs it (`true` for the account
profile, `false` for the use-case profile), and the profile key. -/
def profileBackedFields : List (String × String × Bool × String) :=
  [("subscription_id", "AZURE_SUBSCRIPTION_ID", true, "subscription_id"),
   ("resource_group", "AZURE_RESOURCE_GROUP", true, "resource_group"),
   ("factory_name", "AZURE_FACTORY_NAME", true, "factory_name"),
   ("storage_account_name", "STORAGE_ACCOUNT_NAME", true, "storage_account_name"),
   ("container", "BLOB_CONTAINER", false, "blob_container"),
   ("blob_name", "BLOB_NAME", false, "blob_name"),
   ("snowflake_schema", "SNOWFLAKE_SCHEMA", false, "snowflake_schema"),
   ("snowflake_table", "SNOWFLAKE_TABLE", false, "snowflake_table")]

/-! ## Pipeline artifact generator (adf_generator.py) -/

/-- Canonical source dataset reference name. -/
def DEFAULT_SOURCE_DATASET : String := "SourceDataset"

/-- Canonical sink dataset reference name. -/
def DEFAULT_SINK_DATASET : String := "SinkDataset"

/-- Collapse every whitespace run to a single underscore
(model of `re.sub(r"\s+", "_", name)` on an already stripped name). -/
def wsCollapse : List Char → List Char
  | [] => []
  | c :: rest =>
      if chIsWs c then '_' :: wsCollapse (rest.dropWhile chIsWs)
      else c :: wsCollapse rest
termination_by l => l.length
decreasing_by
  all_goals simp
  have h : ∀ m : List Char, (m.dropWhile chIsWs).length ≤ m.length := by
    intro m
    induction m with
    | nil => simp [List.dropWhile]
    | cons a tl ih =>
        simp only [List.dropWhile]
        cases chIsWs a <;> simp <;> omega
  have := h rest
  omega

/-- Model of `_sanitize_name` in adf_generator.py. -/
def sanitize_name (name : String) (fallback : String) : String :=
  if name = "" then fallback
  else
    let cleaned := (wsCollapse (strTrim name).data).filter
      (fun c => c.isAlphanum || c = '_' || c = '-')
    if cleaned.isEmpty then fallback else ⟨cleaned⟩

/-- Model of `_map_source_block_type` in adf_generator.py. -/
def map_source_block_type (source_type : Option String) : String :=
  let s := strLower (getS source_type)
  if strHasSub "blob" s || strHasSub "azureblob" s then "BlobSource"
  else if strHasSub "adls" s || strHasSub "datalake" s then
    "AzureDataLakeStoreSource"
  else if strHasSub "json" s then "JsonSource"
  else "BlobSource"

/-- Model of `_map_sink_block_type` in adf_generator.py. -/
def map_sink_block_type (sink_type : Option String) : String :=
  let s := strLower (getS sink_type)
  if strHasSub "snowflake" s || strHasSub "sf" s then "SnowflakeSink"
  else if strHasSub "sql" s || strHasSub "synapse" s || strHasSub "azuresql" s
    then "SqlSink"
  else if strHasSub "blob" s || strHasSub "azureblob" s then "BlobSink"
  else "BlobSink"

/-- Source block of an LLM pipeline config (schema-shaped; every field may
be absent). -/
structure SrcCfg where
  type : Option String
  path : Option String
  linked_service : Option String
  dataset_name : Option String
deriving DecidableEq, Repr

/-- Sink block of an LLM pipeline config. -/
structure SnkCfg where
  type : Option String
  table : Option String
  linked_service : Option String
  dataset_name : Option String
deriving DecidableEq, Repr

/-- Validated structured requirement as the generator consumes it
(`PipelineConfig` of the spec). -/
structure PipelineConfig where
  name : Option String
  source : Option SrcCfg
  sink : Option SnkCfg
  schedule : Option String
deriving DecidableEq, Repr

/-- Dataset reference inside a generated activity. -/
structure DatasetRef where
  referenceName : String
  type : String
deriving DecidableEq, Repr

/-- Retry/timeout policy block of a generated activity. -/
structure CopyPolicy where
  timeout : String
  retry : Nat
  retryIntervalInSeconds : Nat
  secureOutput : Bool
  secureInput : Bool
deriving DecidableEq, Repr

/-- Activity document of a pipeline artifact.  The validator treats `name`
and `type` as optional keys, so they are `Option` here; `sourceType` and
`sinkType` flatten `typeProperties.source.type` / `typeProperties.sink.type`. -/
structure ActivityDoc where
  name : Option String
  type : Option String
  policy : Option CopyPolicy
  inputs : List DatasetRef
  outputs : List DatasetRef
  sourceType : Option String
  sinkType : Option String
deriving DecidableEq, Repr

/-- Properties block of a pipeline artifact. -/
structure PropsDoc where
  activities : Option (List ActivityDoc)
  annotations : List (String × String)
deriving DecidableEq, Repr

/-- Generated pipeline artifact document (`PipelineArtifact` of the spec). -/
structure PipelineDoc where
  name : Option String
  properties : Option PropsDoc
deriving DecidableEq, Repr

/-- Model of `create_copy_activity_pipeline` in adf_generator.py.  The
`now` argument stands for the generation timestamp the code reads from the
clock. -/
def create_copy_activity_pipeline (config : PipelineConfig) (now : String) :
    PipelineDoc :=
  let source_cfg := config.source.getD ⟨none, none, none, none⟩
  let sink_cfg := config.sink.getD ⟨none, none, none, none⟩
  let schedule := pyOrS config.schedule "once"
  let pipeline_name := sanitize_name (config.name.getD "CopyPipeline") "CopyPipeline"
  let source_ds := source_cfg.dataset_name.getD DEFAULT_SOURCE_DATASET
  let sink_ds := sink_cfg.dataset_name.getD DEFAULT_SINK_DATASET
  { name := some pipeline_name,
    properties := some
      { activities := some
          [{ name := some "CopyActivity",
             type := some "Copy",
             policy := some
               { timeout := "7.00:00:00",
                 retry := 2,
                 retryIntervalInSeconds := 30,
                 secureOutput := false,
                 secureInput := false },
             inputs := [⟨source_ds, "DatasetReference"⟩],
             outputs := [⟨sink_ds, "DatasetReference"⟩],
             sourceType := some (map_source_block_type source_cfg.type),
             sinkType := some (map_sink_block_type sink_cfg.type) }],
        annotations :=
          [("autoflow:schedule", schedule),
           ("autoflow:generated_at", now ++ "Z")] } }

/-- Model of `validate_pipeline_hooks` in deploy_simulator.py (hook 5 only
prints a warning and does not change the result). -/
def validate_pipeline_hooks (p : PipelineDoc) : Bool × String :=
  if p.name = none ∨ p.properties = none then
    (false, "Missing required keys: name or properties")
  else
    let activities := (p.properties.getD ⟨none, []⟩).activities.getD []
    if activities.isEmpty then
      (false, "Pipeline must include a non-empty activities list")
    else if activities.any (fun a => a.name.isNone || a.type.isNone) then
      (false, "Activity missing name or type")
    else
      let names := activities.map (fun a => a.name.getD "")
      if names.dedup.length = names.length then (true, "Validation successful")
      else (false, "Duplicate activity names found")

/-! ## Prerequisite reconciler (prereq_checker.py)

Remote Azure state is an oracle structure: each field records the outcome
of the corresponding remote call, `Except.error e` standing for a raised
exception with message `e`. -/

/-- Canonical blob linked-service name (utils/settings.py). -/
def BLOB_LS_DEFAULT : String := "AzureBlobStorageLinkedService"

/-- Canonical Snowflake linked-service name (utils/settings.py). -/
def SNOWFLAKE_LS_DEFAULT : String := "Snowflake_LS"

/-- Canonical source dataset name (utils/settings.py). -/
def SRC_DS_DEFAULT : String := "SourceDataset"

/-- Canonical sink dataset name (utils/settings.py). -/
def SNK_DS_DEFAULT : String := "SinkDataset"

/-- Report item of the prerequisite checker (`CheckItem` of the spec). -/
structure CheckItem where
  item : String
  status : String
  how_to_fix : Option String
  error : Option String
  details : List (String × String)
deriving DecidableEq, Repr

/-- Model of helper `_ok` in prereq_checker.py. -/
def mkOk (item : String) (details : List (String × String)) : CheckItem :=
  ⟨item, "present", none, none, details⟩

/-- Model of helper `_missing` in prereq_checker.py. -/
def mkMissing (item : String) (how_to_fix : String)
    (details : List (String × String)) : CheckItem :=
  ⟨item, "missing", some how_to_fix, none, details⟩

/-- Model of helper `_error` in prereq_checker.py. -/
def mkError (item : String) (error : String)
    (details : List (String × String)) : CheckItem :=
  ⟨item, "error", none, some error, details⟩

/-- Prerequisite report (`PrerequisiteReport` of the spec). -/
structure Report where
  summary_present : List String
  summary_missing : List CheckItem
  summary_errors : List CheckItem
  items : List CheckItem
deriving DecidableEq, Repr

/-- Model of helper `_finish` in prereq_checker.py. -/
def finish (items : List CheckItem) : Report :=
  { summary_present :=
      (items.filter (fun i => i.status == "present")).map (fun i => i.item),
    summary_missing := items.filter (fun i => i.status == "missing"),
    summary_errors := items.filter (fun i => i.status == "error"),
    items := items }

/-- Remote-state oracle for `check_prerequisites`: one field per remote
call the function may perform, in source order. -/
structure AdfWorld where
  cred : Except String Unit
  subs : Except String (List String)
  providers : Except String Unit
  resource_group : Except String (String × String)
  data_factory : Except String (String × String)
  storage_account : Except String (String × String)
  containers : Except String (List String)
  blobs : Except String (List String)
  linked_services : Except String (List String)
  datasets : Except String (List String)
deriving Repr

/-- Bootstrap sanity items: one `missing` item per unresolved bootstrap
value, in source order. -/
def bootstrapMissing (subscription_id resource_group factory_name :
    Option String) : List CheckItem :=
  (if truthy subscription_id then [] else
    [mkMissing "subscription_id"
      "Set AZURE_SUBSCRIPTION_ID or include subscription_id in context" []]) ++
  (if truthy resource_group then [] else
    [mkMissing "resource_group"
      "Set AZURE_RESOURCE_GROUP or include resource_group in context" []]) ++
  (if truthy factory_name then [] else
    [mkMissing "factory_name"
      "Set AZURE_FACTORY_NAME or include factory_name in context" []])

/-- Subscription probe; `rest` is the remainder of the report, dropped on
the early return taken when the id is definitely not visible. -/
def subscription_items (sid : String) (w : AdfWorld)
    (rest : List CheckItem) : List CheckItem :=
  match w.subs with
  | .ok subs =>
      if sid ∈ subs then mkOk "subscription" [("subscription_id", sid)] :: rest
      else [mkMissing "subscription" "az account set --subscription <id>"
        [("subscription_id", sid)]]
  | .error e =>
      mkOk "subscription"
        [("subscription_id", sid), ("note", "Could not enumerate (" ++ e ++ ")")]
        :: rest

/-- Provider probe items (non-fatal). -/
def providers_items (w : AdfWorld) : List CheckItem :=
  match w.providers with
  | .ok _ =>
      [mkOk "providers" [("Microsoft.DataFactory", "ok"), ("Microsoft.Storage", "ok")]]
  | .error e =>
      [mkMissing "providers"
        "az provider register --namespace Microsoft.DataFactory && az provider register --namespace Microsoft.Storage"
        [("error", e)]]

/-- Resource-group probe; absence drops the remainder of the report. -/
def rg_items (resource_group : String) (w : AdfWorld)
    (rest : List CheckItem) : List CheckItem :=
  match w.resource_group with
  | .ok (n, loc) => mkOk "resource_group" [("name", n), ("location", loc)] :: rest
  | .error e =>
      [mkMissing "resource_group"
        ("az group create -n " ++ resource_group ++ " -l <your-region>")
        [("error", e)]]

/-- Data-factory probe; absence drops the remainder of the report. -/
def factory_items (resource_group factory_name : String) (w : AdfWorld)
    (rest : List CheckItem) : List CheckItem :=
  match w.data_factory with
  | .ok (n, loc) => mkOk "data_factory" [("name", n), ("location", loc)] :: rest
  | .error e =>
      [mkMissing "data_factory"
        ("az datafactory create -g " ++ resource_group ++ " -n " ++
          factory_name ++ " -l <your-region>")
        [("error", e)]]

/-- Storage-account management-plane and blob data-plane items. -/
def storage_items (resource_group : String)
    (storage_account_name storage_account_key container_name blob_name :
      Option String) (w : AdfWorld) : List CheckItem :=
  if truthy storage_account_name then
    (match w.storage_account with
     | .ok (n, loc) => [mkOk "storage_account" [("name", n), ("location", loc)]]
     | .error e =>
        [mkMissing "storage_account"
          ("az storage account create -g " ++ resource_group ++ " -n " ++
            getS storage_account_name ++
            " -l <your-region> --sku Standard_LRS --kind StorageV2")
          [("error", e)]]) ++
    (if truthy storage_account_key then
      match w.containers with
      | .error e =>
          [mkError "blob_data_plane" ("Blob data-plane access failed: " ++ e) []]
      | .ok containers =>
          if truthy container_name then
            if getS container_name ∈ containers then
              mkOk "blob_container" [("name", getS container_name)] ::
                (if truthy blob_name then
                  match w.blobs with
                  | .ok blob_names =>
                      if getS blob_name ∈ blob_names then
                        [mkOk "blob_exists" [("name", getS blob_name)]]
                      else
                        [mkMissing "blob_exists"
                          ("az storage blob upload --account-name " ++
                            getS storage_account_name ++
                            " --account-key <KEY> --container-name " ++
                            getS container_name ++
                            " --name " ++ getS blob_name ++ " --file ./sales.csv") []]
                  | .error e =>
                      [mkError "blob_data_plane"
                        ("Blob data-plane access failed: " ++ e) []]
                else
                  [mkMissing "blob_name"
                    "Provide blob file name in context or env (BLOB_NAME)." []])
            else
              [mkMissing "blob_container"
                ("az storage container create --account-name " ++
                  getS storage_account_name ++
                  " --account-key <KEY> --name " ++ getS container_name) []]
          else
            [mkMissing "container"
              "Provide blob container name in context or env (BLOB_CONTAINER)." []]
     else
      [mkMissing "storage_account_key"
        "Provide STORAGE_ACCOUNT_KEY or use Managed Identity for LS." []])
  else
    [mkMissing "storage_account_name"
      "Provide storage_account_name in context or env." []]

/-- Linked-service listing items. -/
def linked_service_items (blob_ls_name snowflake_ls_name : String)
    (w : AdfWorld) : List CheckItem :=
  match w.linked_services with
  | .ok ls_names =>
      [(if blob_ls_name ∈ ls_names then
          mkOk "blob_linked_service" [("name", blob_ls_name)]
        else
          mkMissing "blob_linked_service"
            ("Create Blob LS " ++ blob_ls_name ++
              " (connection string SecureString or Managed Identity).") []),
       (if snowflake_ls_name ∈ ls_names then
          mkOk "snowflake_linked_service" [("name", snowflake_ls_name)]
        else
          mkMissing "snowflake_linked_service"
            ("Create Snowflake LS " ++ snowflake_ls_name ++
              " with a valid JDBC-like connection string.") [])]
  | .error e => [mkError "linked_services" ("List failed: " ++ e) []]

/-- Dataset listing items. -/
def dataset_items (source_dataset_name sink_dataset_name blob_ls_name
    snowflake_ls_name : String) (w : AdfWorld) : List CheckItem :=
  match w.datasets with
  | .ok ds_names =>
      [(if source_dataset_name ∈ ds_names then
          mkOk "source_dataset" [("name", source_dataset_name)]
        else
          mkMissing "source_dataset"
            ("Create dataset " ++ source_dataset_name ++
              " (Blob CSV) referencing " ++ blob_ls_name ++ ".") []),
       (if sink_dataset_name ∈ ds_names then
          mkOk "sink_dataset" [("name", sink_dataset_name)]
        else
          mkMissing "sink_dataset"
            ("Create dataset " ++ sink_dataset_name ++
              " (Snowflake table) referencing " ++ snowflake_ls_name ++ ".") [])]
  | .error e => [mkError "datasets" ("List failed: " ++ e) []]

/-- Report item list of `check_prerequisites` in prereq_checker.py,
assembled in source order with the early returns expressed by dropped
continuations. -/
def check_items (ctx env : String → Option String) (w : AdfWorld) :
    List CheckItem :=
  let subscription_id := pyOr (ctx "subscription_id") (env "AZURE_SUBSCRIPTION_ID")
  let resource_group := pyOr (ctx "resource_group") (env "AZURE_RESOURCE_GROUP")
  let factory_name := pyOr (ctx "factory_name") (env "AZURE_FACTORY_NAME")
  let storage_account_name :=
    pyOr (ctx "storage_account_name") (env "STORAGE_ACCOUNT_NAME")
  let storage_account_key :=
    pyOr (ctx "storage_account_key") (env "STORAGE_ACCOUNT_KEY")
  let container_name := pyOr (ctx "container") (env "BLOB_CONTAINER")
  let blob_name := pyOr (ctx "blob_name") (env "BLOB_NAME")
  let blob_ls_name := getS (pyOr (pyOr (ctx "blob_ls_name")
    (env "ADF_BLOB_LINKED_SERVICE")) (some BLOB_LS_DEFAULT))
  let snowflake_ls_name := getS (pyOr (pyOr (ctx "snowflake_ls_name")
    (env "ADF_SNOWFLAKE_LINKED_SERVICE")) (some SNOWFLAKE_LS_DEFAULT))
  let source_dataset_name :=
    getS (pyOr (ctx "source_dataset_name") (some SRC_DS_DEFAULT))
  let sink_dataset_name :=
    getS (pyOr (ctx "sink_dataset_name") (some SNK_DS_DEFAULT))
  let hard := bootstrapMissing subscription_id resource_group factory_name
  if hard ≠ [] then hard
  else
    match w.cred with
    | .error e => [mkError "credentials" ("Auth failed: " ++ e) []]
    | .ok _ =>
        mkOk "credentials" [("type", "ChainedTokenCredential")] ::
          subscription_items (getS subscription_id) w
            (providers_items w ++
              rg_items (getS resource_group) w
                (factory_items (getS resource_group) (getS factory_name) w
                  (storage_items (getS resource_group) storage_account_name
                      storage_account_key container_name blob_name w ++
                    linked_service_items blob_ls_name snowflake_ls_name w ++
                    dataset_items source_dataset_name sink_dataset_name
                      blob_ls_name snowflake_ls_name w)))

/-- Model of `check_prerequisites` in prereq_checker.py. -/
def check_prerequisites (ctx env : String → Option String) (w : AdfWorld) :
    Report :=
  finish (check_items ctx env w)

/-- Status well-formedness predicate of a report item, as a Boolean. -/
def goodStatusB (i : CheckItem) : Bool :=
  i.status == "present" || i.status == "missing" || i.status == "error"

/-! ## Auto-fixer (prereq_checker.py auto_fix_prereqs) -/

/-- Remediation action record (`AutoFixAction` of the spec). -/
structure FixAction where
  item : String
  action : String
  status : String
  details : List (String × String)
  error : Option String
deriving DecidableEq, Repr

/-- Remote-state oracle for the auto-fixer: client construction and the
four create_or_update calls it may attempt. -/
structure FixWorld where
  client : Except String Unit
  create_blob_ls : Except String Unit
  create_snowflake_ls : Except String Unit
  create_source_ds : Except String Unit
  create_sink_ds : Except String Unit
deriving Repr

/-- Result of the auto-fixer.  `fixed_any` and `actions` mirror the Python
return value; `calls` instruments the side effects, recording one
(report-item, object-name) pair per remote create_or_update call the run
attempts. -/
structure FixResult where
  fixed_any : Bool
  actions : List FixAction
  calls : List (String × String)
deriving DecidableEq, Repr

/-- Model of the Python fragment `", ".join(miss) or "unknown"`. -/
def joinOrUnknown (miss : List String) : String :=
  if strJoin ", " miss = "" then "unknown" else strJoin ", " miss

/-- Blob linked-service section of the auto-fixer. -/
def fix_blob_ls (missing_items : List String)
    (storage_account_name storage_account_key : Option String)
    (blob_ls_name : String) (w : FixWorld) :
    List FixAction × Bool × List (String × String) :=
  if "blob_linked_service" ∈ missing_items then
    if truthy storage_account_name = true ∧ truthy storage_account_key = true then
      match w.create_blob_ls with
      | .ok _ =>
          ([⟨"blob_linked_service", "create_or_update", "created",
             [("name", blob_ls_name)], none⟩], true,
           [("blob_linked_service", blob_ls_name)])
      | .error e =>
          ([⟨"blob_linked_service", "create_or_update", "error", [], some e⟩],
           false, [("blob_linked_service", blob_ls_name)])
    else
      ([⟨"blob_linked_service", "skipped", "missing_input", [],
         some ("Missing required inputs: " ++ joinOrUnknown
           ((if truthy storage_account_name = true then []
             else ["storage_account_name"]) ++
            (if truthy storage_account_key = true then []
             else ["storage_account_key"])))⟩], false, [])
  else ([], false, [])

/-- Snowflake linked-service section of the auto-fixer. -/
def fix_snowflake_ls (missing_items : List String)
    (snowflake_conn_str : Option String) (snowflake_ls_name : String)
    (w : FixWorld) : List FixAction × Bool × List (String × String) :=
  if "snowflake_linked_service" ∈ missing_items then
    if truthy snowflake_conn_str = true then
      match w.create_snowflake_ls with
      | .ok _ =>
          ([⟨"snowflake_linked_service", "create_or_update", "created",
             [("name", snowflake_ls_name)], none⟩], true,
           [("snowflake_linked_service", snowflake_ls_name)])
      | .error e =>
          ([⟨"snowflake_linked_service", "create_or_update", "error", [],
             some e⟩], false, [("snowflake_linked_service", snowflake_ls_name)])
    else
      ([⟨"snowflake_linked_service", "skipped", "missing_input", [],
         some "snowflake_connection_string not provided"⟩], false, [])
  else ([], false, [])

/-- Source-dataset section of the auto-fixer. -/
def fix_source_ds (missing_items : List String) (blob_ls_name : String)
    (container_name blob_name : Option String)
    (source_dataset_name : String) (w : FixWorld) :
    List FixAction × Bool × List (String × String) :=
  if "source_dataset" ∈ missing_items then
    if blob_ls_name ≠ "" ∧ truthy container_name = true ∧
        truthy blob_name = true then
      match w.create_source_ds with
      | .ok _ =>
          ([⟨"source_dataset", "create_or_update", "created",
             [("name", source_dataset_name)], none⟩], true,
           [("source_dataset", source_dataset_name)])
      | .error e =>
          ([⟨"source_dataset", "create_or_update", "error", [], some e⟩],
           false, [("source_dataset", source_dataset_name)])
    else
      ([⟨"source_dataset", "skipped", "missing_input", [],
         some ("Missing required inputs: " ++ joinOrUnknown
           ((if truthy container_name = true then [] else ["container"]) ++
            (if truthy blob_name = true then [] else ["blob_name"])))⟩],
       false, [])
  else ([], false, [])

/-- Sink-dataset section of the auto-fixer. -/
def fix_sink_ds (missing_items : List String) (snowflake_ls_name : String)
    (snowflake_schema snowflake_table : Option String)
    (sink_dataset_name : String) (w : FixWorld) :
    List FixAction × Bool × List (String × String) :=
  if "sink_dataset" ∈ missing_items then
    if snowflake_ls_name ≠ "" ∧ truthy snowflake_schema = true ∧
        truthy snowflake_table = true then
      match w.create_sink_ds with
      | .ok _ =>
          ([⟨"sink_dataset", "create_or_update", "created",
             [("name", sink_dataset_name)], none⟩], true,
           [("sink_dataset", sink_dataset_name)])
      | .error e =>
          ([⟨"sink_dataset", "create_or_update", "error", [], some e⟩],
           false, [("sink_dataset", sink_dataset_name)])
    else
      ([⟨"sink_dataset", "skipped", "missing_input", [],
         some ("Missing required inputs: " ++ joinOrUnknown
           ((if snowflake_ls_name ≠ "" then [] else ["snowflake_ls_name"]) ++
            (if truthy snowflake_schema = true then []
             else ["snowflake_schema"]) ++
            (if truthy snowflake_table = true then []
             else ["snowflake_table"])))⟩], false, [])
  else ([], false, [])

/-- Model of `auto_fix_prereqs` in prereq_checker.py. -/
def auto_fix_prereqs (ctx env : String → Option String)
    (initial_report : Report) (w : FixWorld) : FixResult :=
  let subscription_id := pyOr (ctx "subscription_id") (env "AZURE_SUBSCRIPTION_ID")
  let resource_group := pyOr (ctx "resource_group") (env "AZURE_RESOURCE_GROUP")
  let factory_name := pyOr (ctx "factory_name") (env "AZURE_FACTORY_NAME")
  let storage_account_name :=
    pyOr (ctx "storage_account_name") (env "STORAGE_ACCOUNT_NAME")
  let storage_account_key :=
    pyOr (ctx "storage_account_key") (env "STORAGE_ACCOUNT_KEY")
  let container_name := pyOr (ctx "container") (env "BLOB_CONTAINER")
  let blob_name := pyOr (ctx "blob_name") (env "BLOB_NAME")
  let blob_ls_name := getS (pyOr (pyOr (ctx "blob_ls_name")
    (env "ADF_BLOB_LINKED_SERVICE")) (some BLOB_LS_DEFAULT))
  let snowflake_ls_name := getS (pyOr (pyOr (ctx "snowflake_ls_name")
    (env "ADF_SNOWFLAKE_LINKED_SERVICE")) (some SNOWFLAKE_LS_DEFAULT))
  let source_dataset_name :=
    getS (pyOr (ctx "source_dataset_name") (some SRC_DS_DEFAULT))
  let sink_dataset_name :=
    getS (pyOr (ctx "sink_dataset_name") (some SNK_DS_DEFAULT))
  let snowflake_conn_str :=
    pyOr (ctx "snowflake_connection_string") (env "SNOWFLAKE_CONNECTION_STRING")
  let snowflake_schema := pyOr (ctx "snowflake_schema") (env "SNOWFLAKE_SCHEMA")
  let snowflake_table := pyOr (ctx "snowflake_table") (env "SNOWFLAKE_TABLE")
  let missing_bootstrap :=
    (if truthy subscription_id then [] else ["subscription_id"]) ++
    (if truthy resource_group then [] else ["resource_group"]) ++
    (if truthy factory_name then [] else ["factory_name"])
  if missing_bootstrap ≠ [] then
    { fixed_any := false,
      actions := [⟨"bootstrap", "verify_context", "skipped", [],
        some ("Missing: " ++ strJoin ", " missing_bootstrap)⟩],
      calls := [] }
  else
    match w.client with
    | .error e =>
        { fixed_any := false,
          actions := [⟨"credentials", "init_clients", "error", [], some e⟩],
          calls := [] }
    | .ok _ =>
        let missing_items := initial_report.summary_missing.map (fun i => i.item)
        let r1 := fix_blob_ls missing_items storage_account_name
          storage_account_key blob_ls_name w
        let r2 := fix_snowflake_ls missing_items snowflake_conn_str
          snowflake_ls_name w
        let r3 := fix_source_ds missing_items blob_ls_name container_name
          blob_name source_dataset_name w
        let r4 := fix_sink_ds missing_items snowflake_ls_name snowflake_schema
          snowflake_table sink_dataset_name w
        { fixed_any := r1.2.1 || r2.2.1 || r3.2.1 || r4.2.1,
          actions := r1.1 ++ r2.1 ++ r3.1 ++ r4.1,
          calls := r1.2.2 ++ r2.2.2 ++ r3.2.2 ++ r4.2.2 }

/-! ## Deployment orchestrator (deploy_pipeline.py)

Remote Azure state for deployment is again an oracle structure; the
`*_exists` fields model `_ls_exists` / `_dataset_exists` (which swallow
every exception into False), the `create_*` fields model the
create_or_update calls, whose exceptions propagate. -/

/-- Issue record built by the ensure-linked-service helpers. -/
structure Issue where
  type : String
  needed : List String
  message : String
  linked_service_name : Option String
deriving DecidableEq, Repr

/-- Trigger outcome attached to a deployment result: either the started
trigger record or the caught trigger-setup failure. -/
inductive TriggerResult where
  | started (trigger : String) (schedule : String)
  | failed (error : String) (schedule : String)
deriving DecidableEq, Repr

/-- Result record of `deploy_to_adf` (`DeployResult` of the spec). -/
structure DeployResult where
  status : String
  reason : Option String
  issues : List Issue
  pipeline_name : Option String
  result : Option String
  trigger_result : Option TriggerResult
deriving DecidableEq, Repr

/-- Remote-state oracle for the deployment orchestrator. -/
structure DeployWorld where
  blob_ls_exists : Bool
  snowflake_ls_exists : Bool
  create_blob_ls : Except String Unit
  create_snowflake_ls : Except String Unit
  src_ds_exists : Bool
  snk_ds_exists : Bool
  create_src_ds : Except String Unit
  create_snk_ds : Except String Unit
  create_pipeline : Except String String
  trigger_create : Except String Unit
  trigger_start : Except String Unit
deriving Repr

/-- Model of `ensure_blob_linked_service` in deploy_pipeline.py. -/
def ensure_blob_linked_service (w : DeployWorld) (ls_name : String)
    (storage_account_name storage_key : Option String) :
    Except String (Bool × Option Issue) :=
  if w.blob_ls_exists = true then .ok (true, none)
  else if truthy storage_account_name = false ∨ truthy storage_key = false then
    .ok (false, some ⟨"missing_blob_credentials",
      ["storage_account_name", "storage_key"],
      "Blob Linked Service is missing and needs Storage Account credentials.",
      none⟩)
  else
    match w.create_blob_ls with
    | .ok _ => .ok (true, none)
    | .error e => .error e

/-- Model of `ensure_snowflake_linked_service` in deploy_pipeline.py. -/
def ensure_snowflake_linked_service (w : DeployWorld) (ls_name : String)
    (connection_string : Option String) :
    Except String (Bool × Option Issue) :=
  if w.snowflake_ls_exists = true then .ok (true, none)
  else if truthy connection_string = false then
    .ok (false, some ⟨"missing_snowflake_connection_string",
      ["snowflake_connection_string"],
      "Snowflake Linked Service is missing and needs a connection string.",
      none⟩)
  else
    match w.create_snowflake_ls with
    | .ok _ => .ok (true, none)
    | .error e => .error e

/-- Model of `ensure_linked_services_from_config` in deploy_pipeline.py.
The Snowflake linked-service name is recomputed before use with the
literal fallback "Snowflake_LS", exactly as in the source; the missing
connection string raises (RuntimeError) instead of producing an issue. -/
def ensure_linked_services_from_config (config : PipelineConfig)
    (ctx env : String → Option String) (w : DeployWorld) :
    Except String (Bool × List Issue) :=
  let src := config.source.getD ⟨none, none, none, none⟩
  let sink := config.sink.getD ⟨none, none, none, none⟩
  let blob_ls := getS (pyOr (pyOr src.linked_service
    (env "ADF_BLOB_LINKED_SERVICE")) (some BLOB_LS_DEFAULT))
  let storage_account_name :=
    pyOr (ctx "storage_account_name") (env "STORAGE_ACCOUNT_NAME")
  let storage_key := pyOr (ctx "storage_account_key") (env "STORAGE_ACCOUNT_KEY")
  match ensure_blob_linked_service w blob_ls storage_account_name storage_key with
  | .error e => .error e
  | .ok (ok1, issue1) =>
      let issues1 : List Issue :=
        match ok1, issue1 with
        | false, some i => [{ i with linked_service_name := some blob_ls }]
        | _, _ => []
      let snowflake_ls := getS (pyOr (pyOr sink.linked_service
        (env "ADF_SNOWFLAKE_LINKED_SERVICE")) (some "Snowflake_LS"))
      let snowflake_conn := pyOr (ctx "snowflake_connection_string")
        (env "SNOWFLAKE_CONNECTION_STRING")
      if truthy snowflake_conn = false then
        .error ("Snowflake connection string not provided. Set SNOWFLAKE_CONNECTION_STRING in /ui/secrets or pass snowflake_connection_string in context.")
      else
        match ensure_snowflake_linked_service w snowflake_ls snowflake_conn with
        | .error e => .error e
        | .ok (ok2, issue2) =>
            let issues2 : List Issue :=
              match ok2, issue2 with
              | false, some i => [{ i with linked_service_name := some snowflake_ls }]
              | _, _ => []
            let issues := issues1 ++ issues2
            .ok (issues.isEmpty, issues)

/-- Model of `ensure_datasets_from_config` in deploy_pipeline.py: resolves
the blob location from context, environment, then the config source path,
and the Snowflake table from the config sink, then context schema/table;
creates each dataset only when its location is fully known, silently
skipping otherwise.  The remote document payloads are not modelled; only
whether each create call happens and its outcome. -/
def ensure_datasets_from_config (config : PipelineConfig)
    (ctx env : String → Option String) (w : DeployWorld) :
    Except String Unit :=
  let src := config.source.getD ⟨none, none, none, none⟩
  let sink := config.sink.getD ⟨none, none, none, none⟩
  let container0 := pyOr (ctx "container") (env "BLOB_CONTAINER")
  let blob0 := pyOr (ctx "blob_name") (env "BLOB_NAME")
  let fromPath :=
    (truthy container0 = false ∨ truthy blob0 = false) ∧ truthy src.path = true
  let parts :=
    if fromPath then (strSplit '/' (getS src.path)).filter (fun p => ¬p.isEmpty)
    else []
  let container := if fromPath ∧ parts ≠ [] then
      pyOr container0 (some (parts.headD "")) else container0
  let blob_name := if fromPath ∧ parts.length ≥ 2 then
      pyOr blob0 (some (parts.getLastD "")) else blob0
  let step1 : Except String Unit :=
    if truthy container = true ∧ truthy blob_name = true then
      (if w.src_ds_exists = true then .ok () else w.create_src_ds)
    else .ok ()
  match step1 with
  | .error e => .error e
  | .ok _ =>
      let tq0 := sink.table
      let tq := if truthy tq0 = false ∧ truthy (ctx "snowflake_schema") = true ∧
          truthy (ctx "snowflake_table") = true then
        some (getS (ctx "snowflake_schema") ++ "." ++ getS (ctx "snowflake_table"))
      else tq0
      if truthy tq = true then
        (if w.snk_ds_exists = true then .ok () else w.create_snk_ds)
      else .ok ()

/-- Model of `ensure_schedule_trigger` in deploy_pipeline.py: parses the
schedule string and, for a daily recurrence, creates and then starts the
trigger remotely. -/
def ensure_schedule_trigger (w : DeployWorld)
    (pipeline_name schedule_string : String) :
    Except String (Option TriggerResult) :=
  match parse_schedule_string schedule_string with
  | none => .ok none
  | some parsed =>
      if parsed.kind = "daily" then
        match w.trigger_create with
        | .error e => .error e
        | .ok _ =>
            match w.trigger_start with
            | .error e => .error e
            | .ok _ =>
                .ok (some (.started (pipeline_name ++ "_schedule") schedule_string))
      else .ok none

/-- Model of `deploy_to_adf` in deploy_pipeline.py.  The pipeline JSON file
is `none` when absent on disk (`FileNotFoundError`); an `Except.error`
result models an uncaught raised exception, including the RuntimeError
raised for missing bootstrap variables or a missing Snowflake connection
string. -/
def deploy_to_adf (pipeline_file : Option PipelineDoc)
    (config : PipelineConfig) (ctx env : String → Option String)
    (w : DeployWorld) : Except String DeployResult :=
  match pipeline_file with
  | none => .error "Pipeline file not found"
  | some pipeline_data =>
      let pipeline_name := pipeline_data.name.getD "GeneratedPipeline"
      if ¬(truthy (pyOr (ctx "subscription_id") (env "AZURE_SUBSCRIPTION_ID")) = true ∧
          truthy (pyOr (ctx "resource_group") (env "AZURE_RESOURCE_GROUP")) = true ∧
          truthy (pyOr (ctx "factory_name") (env "AZURE_FACTORY_NAME")) = true) then
        .error "Azure env vars missing: AZURE_SUBSCRIPTION_ID, AZURE_RESOURCE_GROUP, AZURE_FACTORY_NAME"
      else
        match ensure_linked_services_from_config config ctx env w with
        | .error e => .error e
        | .ok (lsOk, issues) =>
            if lsOk = false then
              .ok { status := "blocked",
                    reason := some "missing_credentials_or_names",
                    issues := issues,
                    pipeline_name := none,
                    result := none,
                    trigger_result := none }
            else
              match ensure_datasets_from_config config ctx env w with
              | .error e => .error e
              | .ok _ =>
                  match w.create_pipeline with
                  | .error e => .error e
                  | .ok res =>
                      let schedule_str := config.schedule.getD "once"
                      match ensure_schedule_trigger w pipeline_name schedule_str with
                      | .ok tr =>
                          .ok { status := "deployed",
                                reason := none,
                                issues := [],
                                pipeline_name := some pipeline_name,
                                result := some res,
                                trigger_result := tr }
                      | .error e =>
                          .ok { status := "deployed",
                                reason := none,
                                issues := [],
                                pipeline_name := some pipeline_name,
                                result := some res,
                                trigger_result := some (.failed
                                  ("trigger_setup_failed: " ++ e) schedule_str) }

end AutoFlowAI

namespace AutoFlowAI

/-! ## Theorems -/

/-- Helper: the Python `or` keeps a truthy left operand. -/
theorem pyOr_truthy (a b : Option String) (h : truthy a = true) :
    pyOr a b = a := by
  simp [pyOr, h]

/-- Helper: the Python `or` falls back on a falsy left operand. -/
theorem pyOr_falsy (a b : Option String) (h : truthy a = false) :
    pyOr a b = b := by
  simp [pyOr, h]

/-- Helper: bootstrap items all carry a well-formed status. -/
theorem bootstrapMissing_all (a b c : Option String) :
    (bootstrapMissing a b c).all goodStatusB = true := by
  unfold bootstrapMissing
  cases truthy a <;> cases truthy b <;> cases truthy c <;> rfl

/-- Helper: provider items all carry a well-formed status. -/
theorem providers_items_all (w : AdfWorld) :
    (providers_items w).all goodStatusB = true := by
  unfold providers_items
  split <;> rfl

/-- Helper: subscription items all carry a well-formed status. -/
theorem subscription_items_all (sid : String) (w : AdfWorld)
    (rest : List CheckItem) (h : rest.all goodStatusB = true) :
    (subscription_items sid w rest).all goodStatusB = true := by
  unfold subscription_items
  split
  · split
    · simp [List.all_cons, h, goodStatusB, mkOk]
    · rfl
  · simp [List.all_cons, h, goodStatusB, mkOk]

/-- Helper: resource-group items all carry a well-formed status. -/
theorem rg_items_all (rg : String) (w : AdfWorld) (rest : List CheckItem)
    (h : rest.all goodStatusB = true) :
    (rg_items rg w rest).all goodStatusB = true := by
  unfold rg_items
  split
  · simp [List.all_cons, h, goodStatusB, mkOk]
  · rfl

/-- Helper: data-factory items all carry a well-formed status. -/
theorem factory_items_all (rg fn : String) (w : AdfWorld)
    (rest : List CheckItem) (h : rest.all goodStatusB = true) :
    (factory_items rg fn w rest).all goodStatusB = true := by
  unfold factory_items
  split
  · simp [List.all_cons, h, goodStatusB, mkOk]
  · rfl

/-- Helper: storage items all carry a well-formed status. -/
theorem storage_items_all (rg : String) (san key cn bn : Option String)
    (w : AdfWorld) :
    (storage_items rg san key cn bn w).all goodStatusB = true := by
  unfold storage_items
  repeat' split
  all_goals rfl

/-- Helper: linked-service items all carry a well-formed status. -/
theorem linked_service_items_all (b s : String) (w : AdfWorld) :
    (linked_service_items b s w).all goodStatusB = true := by
  unfold linked_service_items
  repeat' split
  all_goals rfl

/-- Helper: dataset items all carry a well-formed status. -/
theorem dataset_items_all (src snk b s : String) (w : AdfWorld) :
    (dataset_items src snk b s w).all goodStatusB = true := by
  unfold dataset_items
  repeat' split
  all_goals rfl

/-- Helper: every item of the assembled report carries a well-formed
status. -/
theorem check_items_all (ctx env : String → Option String) (w : AdfWorld) :
    (check_items ctx env w).all goodStatusB = true := by
  unfold check_items
  dsimp only
  split
  · exact bootstrapMissing_all _ _ _
  · split
    · rfl
    · simp only [List.all_cons]
      refine (Bool.and_eq_true _ _).mpr ⟨rfl, ?_⟩
      refine subscription_items_all _ _ _ ?_
      simp only [List.all_append]
      refine (Bool.and_eq_true _ _).mpr ⟨providers_items_all _, ?_⟩
      refine rg_items_all _ _ _ ?_
      refine factory_items_all _ _ _ _ ?_
      simp only [List.all_append]
      exact (Bool.and_eq_true _ _).mpr ⟨(Bool.and_eq_true _ _).mpr
        ⟨storage_items_all _ _ _ _ _ _, linked_service_items_all _ _ _⟩,
        dataset_items_all _ _ _ _ _⟩

/-- Helper: membership form of `check_items_all`. -/
theorem check_items_good (ctx env : String → Option String) (w : AdfWorld) :
    ∀ i ∈ check_items ctx env w, goodStatusB i = true :=
  fun i hi => List.all_eq_true.mp (check_items_all ctx env w) i hi

/-- Helper: a list of well-formed items splits exactly into the three
status buckets. -/
theorem filter_status_partition (l : List CheckItem)
    (h : ∀ i ∈ l, goodStatusB i = true) :
    ((l.filter (fun i => i.status == "present")).length +
      (l.filter (fun i => i.status == "missing")).length +
      (l.filter (fun i => i.status == "error")).length) = l.length := by
  induction l with
  | nil => rfl
  | cons a tl ih =>
      have ha := h a (List.mem_cons_self a tl)
      have htl : ∀ i ∈ tl, goodStatusB i = true :=
        fun i hi => h i (List.mem_cons_of_mem a hi)
      have hs := ih htl
      simp only [goodStatusB, Bool.or_eq_true, beq_iff_eq] at ha
      rcases ha with (h1 | h1) | h1 <;>
        simp [List.filter_cons, h1] <;> omega

/-- Claim C9: every report returned by the prerequisite check satisfies
the partition invariant: each item carries status present, missing or
error; the summary lists are exactly the status-filtered items in order;
and the three buckets jointly count every item exactly once. -/
theorem claim_C9_report_partition (ctx env : String → Option String)
    (w : AdfWorld) :
    (∀ i ∈ (check_prerequisites ctx env w).items,
      i.status = "present" ∨ i.status = "missing" ∨ i.status = "error") ∧
    (check_prerequisites ctx env w).summary_present =
      (((check_prerequisites ctx env w).items.filter
        (fun i => i.status == "present")).map (fun i => i.item)) ∧
    (check_prerequisites ctx env w).summary_missing =
      ((check_prerequisites ctx env w).items.filter
        (fun i => i.status == "missing")) ∧
    (check_prerequisites ctx env w).summary_errors =
      ((check_prerequisites ctx env w).items.filter
        (fun i => i.status == "error")) ∧
    (((check_prerequisites ctx env w).items.filter
        (fun i => i.status == "present")).length +
      ((check_prerequisites ctx env w).items.filter
        (fun i => i.status == "missing")).length +
      ((check_prerequisites ctx env w).items.filter
        (fun i => i.status == "error")).length) =
      (check_prerequisites ctx env w).items.length := by
  refine ⟨?_, rfl, rfl, rfl, ?_⟩
  · intro i hi
    have hg := check_items_good ctx env w i hi
    simp only [goodStatusB, Bool.or_eq_true, beq_iff_eq] at hg
    exact or_assoc.mp hg
  · exact filter_status_partition _ (check_items_good ctx env w)

/-- Helper: when a bootstrap value is unresolved the assembled report is
exactly the bootstrap-missing list. -/
theorem check_items_bootstrap (ctx env : String → Option String)
    (w : AdfWorld)
    (hne : bootstrapMissing
        (pyOr (ctx "subscription_id") (env "AZURE_SUBSCRIPTION_ID"))
        (pyOr (ctx "resource_group") (env "AZURE_RESOURCE_GROUP"))
        (pyOr (ctx "factory_name") (env "AZURE_FACTORY_NAME")) ≠ []) :
    check_items ctx env w = bootstrapMissing
        (pyOr (ctx "subscription_id") (env "AZURE_SUBSCRIPTION_ID"))
        (pyOr (ctx "resource_group") (env "AZURE_RESOURCE_GROUP"))
        (pyOr (ctx "factory_name") (env "AZURE_FACTORY_NAME")) := by
  simp only [check_items]
  rw [if_pos hne]

/-- Claim C6: when any of the three bootstrap values is unset in both the
context and the environment, the prerequisite check returns immediately
with exactly one missing item per unset bootstrap value and nothing else,
and the result does not depend on remote state at all (no remote calls). -/
theorem claim_C6_bootstrap_short_circuit (ctx env : String → Option String)
    (w : AdfWorld)
    (h : truthy (pyOr (ctx "subscription_id") (env "AZURE_SUBSCRIPTION_ID")) = false ∨
      truthy (pyOr (ctx "resource_group") (env "AZURE_RESOURCE_GROUP")) = false ∨
      truthy (pyOr (ctx "factory_name") (env "AZURE_FACTORY_NAME")) = false) :
    (check_prerequisites ctx env w).items =
      (if truthy (pyOr (ctx "subscription_id") (env "AZURE_SUBSCRIPTION_ID"))
        then [] else [mkMissing "subscription_id"
          "Set AZURE_SUBSCRIPTION_ID or include subscription_id in context" []]) ++
      (if truthy (pyOr (ctx "resource_group") (env "AZURE_RESOURCE_GROUP"))
        then [] else [mkMissing "resource_group"
          "Set AZURE_RESOURCE_GROUP or include resource_group in context" []]) ++
      (if truthy (pyOr (ctx "factory_name") (env "AZURE_FACTORY_NAME"))
        then [] else [mkMissing "factory_name"
          "Set AZURE_FACTORY_NAME or include factory_name in context" []]) ∧
    (∀ w2 : AdfWorld, check_prerequisites ctx env w2 = check_prerequisites ctx env w) := by
  have hne : bootstrapMissing
      (pyOr (ctx "subscription_id") (env "AZURE_SUBSCRIPTION_ID"))
      (pyOr (ctx "resource_group") (env "AZURE_RESOURCE_GROUP"))
      (pyOr (ctx "factory_name") (env "AZURE_FACTORY_NAME")) ≠ [] := by
    unfold bootstrapMissing
    rcases h with h | h | h <;> rw [h] <;>
      cases truthy (pyOr (ctx "subscription_id") (env "AZURE_SUBSCRIPTION_ID")) <;>
      cases truthy (pyOr (ctx "resource_group") (env "AZURE_RESOURCE_GROUP")) <;>
      cases truthy (pyOr (ctx "factory_name") (env "AZURE_FACTORY_NAME")) <;>
      simp
  constructor
  · show (finish (check_items ctx env w)).items = _
    rw [show (finish (check_items ctx env w)).items = check_items ctx env w from rfl,
      check_items_bootstrap ctx env w hne]
    rfl
  · intro w2
    show finish (check_items ctx env w2) = finish (check_items ctx env w)
    rw [check_items_bootstrap ctx env w hne, check_items_bootstrap ctx env w2 hne]

/-- Witness for claim C6: with an empty context and environment all three
bootstrap items are reported missing, against a fully healthy remote
state. -/
theorem claim_C6_witness :
    (check_prerequisites (fun _ => none) (fun _ => none)
        ⟨Except.ok (), Except.ok [], Except.ok (), Except.ok ("rg", "we"),
          Except.ok ("df", "we"), Except.ok ("sa", "we"), Except.ok [],
          Except.ok [], Except.ok [], Except.ok []⟩).items =
      [mkMissing "subscription_id"
          "Set AZURE_SUBSCRIPTION_ID or include subscription_id in context" [],
        mkMissing "resource_group"
          "Set AZURE_RESOURCE_GROUP or include resource_group in context" [],
        mkMissing "factory_name"
          "Set AZURE_FACTORY_NAME or include factory_name in context" []] :=
  ((claim_C6_bootstrap_short_circuit (fun _ => none) (fun _ => none)
      ⟨Except.ok (), Except.ok [], Except.ok (), Except.ok ("rg", "we"),
        Except.ok ("df", "we"), Except.ok ("sa", "we"), Except.ok [],
        Except.ok [], Except.ok [], Except.ok []⟩
      (Or.inl (by decide))).1).trans (by decide)

/-- Helper: every action of the blob linked-service section targets the
blob linked-service item. -/
theorem fix_blob_ls_item_names (mi : List String) (san key : Option String)
    (bln : String) (w : FixWorld) :
    ∀ a ∈ (fix_blob_ls mi san key bln w).1, a.item = "blob_linked_service" := by
  intro a ha
  unfold fix_blob_ls at ha
  repeat' split at ha
  all_goals simp only [List.mem_singleton, List.not_mem_nil] at ha
  all_goals (subst ha; rfl)

/-- Helper: every recorded call of the blob linked-service section targets
the blob linked-service item. -/
theorem fix_blob_ls_call_names (mi : List String) (san key : Option String)
    (bln : String) (w : FixWorld) :
    ∀ c ∈ (fix_blob_ls mi san key bln w).2.2, c.1 = "blob_linked_service" := by
  intro c hc
  unfold fix_blob_ls at hc
  repeat' split at hc
  all_goals simp only [List.mem_singleton, List.not_mem_nil] at hc
  all_goals (subst hc; rfl)

/-- Helper: every action of the Snowflake linked-service section targets
the Snowflake linked-service item. -/
theorem fix_snowflake_ls_item_names (mi : List String) (cs : Option String)
    (sln : String) (w : FixWorld) :
    ∀ a ∈ (fix_snowflake_ls mi cs sln w).1,
      a.item = "snowflake_linked_service" := by
  intro a ha
  unfold fix_snowflake_ls at ha
  repeat' split at ha
  all_goals simp only [List.mem_singleton, List.not_mem_nil] at ha
  all_goals (subst ha; rfl)

/-- Helper: every recorded call of the Snowflake linked-service section
targets the Snowflake linked-service item. -/
theorem fix_snowflake_ls_call_names (mi : List String) (cs : Option String)
    (sln : String) (w : FixWorld) :
    ∀ c ∈ (fix_snowflake_ls mi cs sln w).2.2,
      c.1 = "snowflake_linked_service" := by
  intro c hc
  unfold fix_snowflake_ls at hc
  repeat' split at hc
  all_goals simp only [List.mem_singleton, List.not_mem_nil] at hc
  all_goals (subst hc; rfl)

/-- Helper: every action of the source-dataset section targets the
source-dataset item. -/
theorem fix_source_ds_item_names (mi : List String) (bln : String)
    (cn bn : Option String) (sdn : String) (w : FixWorld) :
    ∀ a ∈ (fix_source_ds mi bln cn bn sdn w).1, a.item = "source_dataset" := by
  intro a ha
  unfold fix_source_ds at ha
  repeat' split at ha
  all_goals simp only [List.mem_singleton, List.not_mem_nil] at ha
  all_goals (subst ha; rfl)

/-- Helper: every recorded call of the source-dataset section targets the
source-dataset item. -/
theorem fix_source_ds_call_names (mi : List String) (bln : String)
    (cn bn : Option String) (sdn : String) (w : FixWorld) :
    ∀ c ∈ (fix_source_ds mi bln cn bn sdn w).2.2, c.1 = "source_dataset" := by
  intro c hc
  unfold fix_source_ds at hc
  repeat' split at hc
  all_goals simp only [List.mem_singleton, List.not_mem_nil] at hc
  all_goals (subst hc; rfl)

/-- Helper: every action of the sink-dataset section targets the
sink-dataset item. -/
theorem fix_sink_ds_item_names (mi : List String) (sln : String)
    (sch tab : Option String) (sdn : String) (w : FixWorld) :
    ∀ a ∈ (fix_sink_ds mi sln sch tab sdn w).1, a.item = "sink_dataset" := by
  intro a ha
  unfold fix_sink_ds at ha
  repeat' split at ha
  all_goals simp only [List.mem_singleton, List.not_mem_nil] at ha
  all_goals (subst ha; rfl)

/-- Helper: every recorded call of the sink-dataset section targets the
sink-dataset item. -/
theorem fix_sink_ds_call_names (mi : List String) (sln : String)
    (sch tab : Option String) (sdn : String) (w : FixWorld) :
    ∀ c ∈ (fix_sink_ds mi sln sch tab sdn w).2.2, c.1 = "sink_dataset" := by
  intro c hc
  unfold fix_sink_ds at hc
  repeat' split at hc
  all_goals simp only [List.mem_singleton, List.not_mem_nil] at hc
  all_goals (subst hc; rfl)

/-- Helper: the blob section with the item missing but an absent input
yields exactly its skip action, no fix, no call. -/
theorem fix_blob_ls_skip (mi : List String) (san key : Option String)
    (bln : String) (w : FixWorld)
    (hmem : "blob_linked_service" ∈ mi)
    (hmiss : ¬(truthy san = true ∧ truthy key = true)) :
    fix_blob_ls mi san key bln w =
      ([⟨"blob_linked_service", "skipped", "missing_input", [],
        some ("Missing required inputs: " ++ joinOrUnknown
          ((if truthy san = true then [] else ["storage_account_name"]) ++
           (if truthy key = true then [] else ["storage_account_key"])))⟩],
       false, []) := by
  unfold fix_blob_ls
  rw [if_pos hmem, if_neg hmiss]

/-- Helper: the Snowflake section with the item missing but no connection
string yields exactly its skip action, no fix, no call. -/
theorem fix_snowflake_ls_skip (mi : List String) (cs : Option String)
    (sln : String) (w : FixWorld)
    (hmem : "snowflake_linked_service" ∈ mi)
    (hmiss : ¬(truthy cs = true)) :
    fix_snowflake_ls mi cs sln w =
      ([⟨"snowflake_linked_service", "skipped", "missing_input", [],
        some "snowflake_connection_string not provided"⟩], false, []) := by
  unfold fix_snowflake_ls
  rw [if_pos hmem, if_neg hmiss]

/-- Helper: the source-dataset section with the item missing but an absent
input yields exactly its skip action, no fix, no call. -/
theorem fix_source_ds_skip (mi : List String) (bln : String)
    (cn bn : Option String) (sdn : String) (w : FixWorld)
    (hmem : "source_dataset" ∈ mi)
    (hmiss : ¬(bln ≠ "" ∧ truthy cn = true ∧ truthy bn = true)) :
    fix_source_ds mi bln cn bn sdn w =
      ([⟨"source_dataset", "skipped", "missing_input", [],
        some ("Missing required inputs: " ++ joinOrUnknown
          ((if truthy cn = true then [] else ["container"]) ++
           (if truthy bn = true then [] else ["blob_name"])))⟩],
       false, []) := by
  unfold fix_source_ds
  rw [if_pos hmem, if_neg hmiss]

/-- Helper: the sink-dataset section with the item missing but an absent
input yields exactly its skip action, no fix, no call. -/
theorem fix_sink_ds_skip (mi : List String) (sln : String)
    (sch tab : Option String) (sdn : String) (w : FixWorld)
    (hmem : "sink_dataset" ∈ mi)
    (hmiss : ¬(sln ≠ "" ∧ truthy sch = true ∧ truthy tab = true)) :
    fix_sink_ds mi sln sch tab sdn w =
      ([⟨"sink_dataset", "skipped", "missing_input", [],
        some ("Missing required inputs: " ++ joinOrUnknown
          ((if sln ≠ "" then [] else ["snowflake_ls_name"]) ++
           (if truthy sch = true then [] else ["snowflake_schema"]) ++
           (if truthy tab = true then [] else ["snowflake_table"])))⟩],
       false, []) := by
  unfold fix_sink_ds
  rw [if_pos hmem, if_neg hmiss]

/-- Helper: a list of actions all targeting item `s` filters to nothing
under a different item name `t`. -/
theorem filter_item_nil (l : List FixAction) (s t : String)
    (hall : ∀ a ∈ l, a.item = s) (hne : s ≠ t) :
    l.filter (fun a => a.item == t) = [] := by
  induction l with
  | nil => rfl
  | cons a tl ih =>
      have ha := hall a (List.mem_cons_self a tl)
      have h2 : (a.item == t) = false := by
        rw [ha]
        exact beq_false_of_ne hne
      simp [List.filter_cons, h2,
        ih (fun x hx => hall x (List.mem_cons_of_mem a hx))]

/-- Helper: a list of calls all targeting item `s` contains no call for a
different item name `t`. -/
theorem calls_all_ne (l : List (String × String)) (s t : String)
    (hall : ∀ c ∈ l, c.1 = s) (hne : s ≠ t) :
    l.all (fun c => !(c.1 == t)) = true := by
  rw [List.all_eq_true]
  intro c hc
  rw [hall c hc, beq_false_of_ne hne]
  rfl

/-- Helper: with resolvable bootstrap identifiers and a constructed client,
the auto-fixer is the concatenation of its four independent sections. -/
theorem auto_fix_prereqs_main (ctx env : String → Option String)
    (report : Report) (w : FixWorld)
    (hb1 : truthy (pyOr (ctx "subscription_id") (env "AZURE_SUBSCRIPTION_ID")) = true)
    (hb2 : truthy (pyOr (ctx "resource_group") (env "AZURE_RESOURCE_GROUP")) = true)
    (hb3 : truthy (pyOr (ctx "factory_name") (env "AZURE_FACTORY_NAME")) = true)
    (hc : w.client = Except.ok ()) :
    auto_fix_prereqs ctx env report w =
      { fixed_any :=
          (fix_blob_ls (report.summary_missing.map (fun i => i.item))
            (pyOr (ctx "storage_account_name") (env "STORAGE_ACCOUNT_NAME"))
            (pyOr (ctx "storage_account_key") (env "STORAGE_ACCOUNT_KEY"))
            (getS (pyOr (pyOr (ctx "blob_ls_name") (env "ADF_BLOB_LINKED_SERVICE"))
              (some BLOB_LS_DEFAULT))) w).2.1 ||
          (fix_snowflake_ls (report.summary_missing.map (fun i => i.item))
            (pyOr (ctx "snowflake_connection_string") (env "SNOWFLAKE_CONNECTION_STRING"))
            (getS (pyOr (pyOr (ctx "snowflake_ls_name") (env "ADF_SNOWFLAKE_LINKED_SERVICE"))
              (some SNOWFLAKE_LS_DEFAULT))) w).2.1 ||
          (fix_source_ds (report.summary_missing.map (fun i => i.item))
            (getS (pyOr (pyOr (ctx "blob_ls_name") (env "ADF_BLOB_LINKED_SERVICE"))
              (some BLOB_LS_DEFAULT)))
            (pyOr (ctx "container") (env "BLOB_CONTAINER"))
            (pyOr (ctx "blob_name") (env "BLOB_NAME"))
            (getS (pyOr (ctx "source_dataset_name") (some SRC_DS_DEFAULT))) w).2.1 ||
          (fix_sink_ds (report.summary_missing.map (fun i => i.item))
            (getS (pyOr (pyOr (ctx "snowflake_ls_name") (env "ADF_SNOWFLAKE_LINKED_SERVICE"))
              (some SNOWFLAKE_LS_DEFAULT)))
            (pyOr (ctx "snowflake_schema") (env "SNOWFLAKE_SCHEMA"))
            (pyOr (ctx "snowflake_table") (env "SNOWFLAKE_TABLE"))
            (getS (pyOr (ctx "sink_dataset_name") (some SNK_DS_DEFAULT))) w).2.1,
        actions :=
          (fix_blob_ls (report.summary_missing.map (fun i => i.item))
            (pyOr (ctx "storage_account_name") (env "STORAGE_ACCOUNT_NAME"))
            (pyOr (ctx "storage_account_key") (env "STORAGE_ACCOUNT_KEY"))
            (getS (pyOr (pyOr (ctx "blob_ls_name") (env "ADF_BLOB_LINKED_SERVICE"))
              (some BLOB_LS_DEFAULT))) w).1 ++
          (fix_snowflake_ls (report.summary_missing.map (fun i => i.item))
            (pyOr (ctx "snowflake_connection_string") (env "SNOWFLAKE_CONNECTION_STRING"))
            (getS (pyOr (pyOr (ctx "snowflake_ls_name") (env "ADF_SNOWFLAKE_LINKED_SERVICE"))
              (some SNOWFLAKE_LS_DEFAULT))) w).1 ++
          (fix_source_ds (report.summary_missing.map (fun i => i.item))
            (getS (pyOr (pyOr (ctx "blob_ls_name") (env "ADF_BLOB_LINKED_SERVICE"))
              (some BLOB_LS_DEFAULT)))
            (pyOr (ctx "container") (env "BLOB_CONTAINER"))
            (pyOr (ctx "blob_name") (env "BLOB_NAME"))
            (getS (pyOr (ctx "source_dataset_name") (some SRC_DS_DEFAULT))) w).1 ++
          (fix_sink_ds (report.summary_missing.map (fun i => i.item))
            (getS (pyOr (pyOr (ctx "snowflake_ls_name") (env "ADF_SNOWFLAKE_LINKED_SERVICE"))
              (some SNOWFLAKE_LS_DEFAULT)))
            (pyOr (ctx "snowflake_schema") (env "SNOWFLAKE_SCHEMA"))
            (pyOr (ctx "snowflake_table") (env "SNOWFLAKE_TABLE"))
            (getS (pyOr (ctx "sink_dataset_name") (some SNK_DS_DEFAULT))) w).1,
        calls :=
          (fix_blob_ls (report.summary_missing.map (fun i => i.item))
            (pyOr (ctx "storage_account_name") (env "STORAGE_ACCOUNT_NAME"))
            (pyOr (ctx "storage_account_key") (env "STORAGE_ACCOUNT_KEY"))
            (getS (pyOr (pyOr (ctx "blob_ls_name") (env "ADF_BLOB_LINKED_SERVICE"))
              (some BLOB_LS_DEFAULT))) w).2.2 ++
          (fix_snowflake_ls (report.summary_missing.map (fun i => i.item))
            (pyOr (ctx "snowflake_connection_string") (env "SNOWFLAKE_CONNECTION_STRING"))
            (getS (pyOr (pyOr (ctx "snowflake_ls_name") (env "ADF_SNOWFLAKE_LINKED_SERVICE"))
              (some SNOWFLAKE_LS_DEFAULT))) w).2.2 ++
          (fix_source_ds (report.summary_missing.map (fun i => i.item))
            (getS (pyOr (pyOr (ctx "blob_ls_name") (env "ADF_BLOB_LINKED_SERVICE"))
              (some BLOB_LS_DEFAULT)))
            (pyOr (ctx "container") (env "BLOB_CONTAINER"))
            (pyOr (ctx "blob_name") (env "BLOB_NAME"))
            (getS (pyOr (ctx "source_dataset_name") (some SRC_DS_DEFAULT))) w).2.2 ++
          (fix_sink_ds (report.summary_missing.map (fun i => i.item))
            (getS (pyOr (pyOr (ctx "snowflake_ls_name") (env "ADF_SNOWFLAKE_LINKED_SERVICE"))
              (some SNOWFLAKE_LS_DEFAULT)))
            (pyOr (ctx "snowflake_schema") (env "SNOWFLAKE_SCHEMA"))
            (pyOr (ctx "snowflake_table") (env "SNOWFLAKE_TABLE"))
            (getS (pyOr (ctx "sink_dataset_name") (some SNK_DS_DEFAULT))) w).2.2 } := by
  have hboot :
      ((if truthy (pyOr (ctx "subscription_id") (env "AZURE_SUBSCRIPTION_ID"))
          then ([] : List String) else ["subscription_id"]) ++
        (if truthy (pyOr (ctx "resource_group") (env "AZURE_RESOURCE_GROUP"))
          then ([] : List String) else ["resource_group"]) ++
        (if truthy (pyOr (ctx "factory_name") (env "AZURE_FACTORY_NAME"))
          then ([] : List String) else ["factory_name"])) = [] := by
    simp [hb1, hb2, hb3]
  simp only [auto_fix_prereqs]
  rw [if_neg (fun hcon => hcon hboot), hc]

/-- Claim C1 counterexample: with the blob linked service missing and the
storage credentials absent, the one action emitted for the item has status
missing_input (its action field is skipped), so no action for the item has
status skipped as the claim states. -/
theorem claim_C1_counterexample :
    ((auto_fix_prereqs
        (fun k => if k = "subscription_id" then some "sub"
          else if k = "resource_group" then some "rg"
          else if k = "factory_name" then some "adf" else none)
        (fun _ => none)
        ⟨[], [mkMissing "blob_linked_service" "Create Blob LS" []], [],
          [mkMissing "blob_linked_service" "Create Blob LS" []]⟩
        ⟨Except.ok (), Except.ok (), Except.ok (), Except.ok (), Except.ok ()⟩).actions.filter
      (fun a => a.item == "blob_linked_service")) =
      [⟨"blob_linked_service", "skipped", "missing_input", [],
        some "Missing required inputs: storage_account_name, storage_account_key"⟩] ∧
    ((auto_fix_prereqs
        (fun k => if k = "subscription_id" then some "sub"
          else if k = "resource_group" then some "rg"
          else if k = "factory_name" then some "adf" else none)
        (fun _ => none)
        ⟨[], [mkMissing "blob_linked_service" "Create Blob LS" []], [],
          [mkMissing "blob_linked_service" "Create Blob LS" []]⟩
        ⟨Except.ok (), Except.ok (), Except.ok (), Except.ok (), Except.ok ()⟩).actions.filter
      (fun a => a.item == "blob_linked_service" && a.status == "skipped")) = [] := by
  decide

/-- Claim C1 (amended): under resolvable bootstrap identifiers and a
constructed client, for every report item classified missing whose minimum
required inputs are absent from the resolved context, the auto-fixer
attempts no remote creation for that item and emits exactly one action for
it, with action field skipped and status missing_input, whose message names
every missing input for that item. -/
theorem claim_C1_autofix_missing_input (ctx env : String → Option String)
    (report : Report) (w : FixWorld)
    (hb1 : truthy (pyOr (ctx "subscription_id") (env "AZURE_SUBSCRIPTION_ID")) = true)
    (hb2 : truthy (pyOr (ctx "resource_group") (env "AZURE_RESOURCE_GROUP")) = true)
    (hb3 : truthy (pyOr (ctx "factory_name") (env "AZURE_FACTORY_NAME")) = true)
    (hc : w.client = Except.ok ()) :
    ("blob_linked_service" ∈ report.summary_missing.map (fun i => i.item) →
      ¬(truthy (pyOr (ctx "storage_account_name") (env "STORAGE_ACCOUNT_NAME")) = true ∧
        truthy (pyOr (ctx "storage_account_key") (env "STORAGE_ACCOUNT_KEY")) = true) →
      (auto_fix_prereqs ctx env report w).actions.filter
          (fun a => a.item == "blob_linked_service") =
        [⟨"blob_linked_service", "skipped", "missing_input", [],
          some ("Missing required inputs: " ++ joinOrUnknown
            ((if truthy (pyOr (ctx "storage_account_name") (env "STORAGE_ACCOUNT_NAME")) = true
              then [] else ["storage_account_name"]) ++
             (if truthy (pyOr (ctx "storage_account_key") (env "STORAGE_ACCOUNT_KEY")) = true
              then [] else ["storage_account_key"])))⟩] ∧
      (auto_fix_prereqs ctx env report w).calls.all
        (fun c => !(c.1 == "blob_linked_service")) = true) ∧
    ("snowflake_linked_service" ∈ report.summary_missing.map (fun i => i.item) →
      ¬(truthy (pyOr (ctx "snowflake_connection_string")
          (env "SNOWFLAKE_CONNECTION_STRING")) = true) →
      (auto_fix_prereqs ctx env report w).actions.filter
          (fun a => a.item == "snowflake_linked_service") =
        [⟨"snowflake_linked_service", "skipped", "missing_input", [],
          some "snowflake_connection_string not provided"⟩] ∧
      (auto_fix_prereqs ctx env report w).calls.all
        (fun c => !(c.1 == "snowflake_linked_service")) = true) ∧
    ("source_dataset" ∈ report.summary_missing.map (fun i => i.item) →
      ¬(getS (pyOr (pyOr (ctx "blob_ls_name") (env "ADF_BLOB_LINKED_SERVICE"))
          (some BLOB_LS_DEFAULT)) ≠ "" ∧
        truthy (pyOr (ctx "container") (env "BLOB_CONTAINER")) = true ∧
        truthy (pyOr (ctx "blob_name") (env "BLOB_NAME")) = true) →
      (auto_fix_prereqs ctx env report w).actions.filter
          (fun a => a.item == "source_dataset") =
        [⟨"source_dataset", "skipped", "missing_input", [],
          some ("Missing required inputs: " ++ joinOrUnknown
            ((if truthy (pyOr (ctx "container") (env "BLOB_CONTAINER")) = true
              then [] else ["container"]) ++
             (if truthy (pyOr (ctx "blob_name") (env "BLOB_NAME")) = true
              then [] else ["blob_name"])))⟩] ∧
      (auto_fix_prereqs ctx env report w).calls.all
        (fun c => !(c.1 == "source_dataset")) = true) ∧
    ("sink_dataset" ∈ report.summary_missing.map (fun i => i.item) →
      ¬(getS (pyOr (pyOr (ctx "snowflake_ls_name") (env "ADF_SNOWFLAKE_LINKED_SERVICE"))
          (some SNOWFLAKE_LS_DEFAULT)) ≠ "" ∧
        truthy (pyOr (ctx "snowflake_schema") (env "SNOWFLAKE_SCHEMA")) = true ∧
        truthy (pyOr (ctx "snowflake_table") (env "SNOWFLAKE_TABLE")) = true) →
      (auto_fix_prereqs ctx env report w).actions.filter
          (fun a => a.item == "sink_dataset") =
        [⟨"sink_dataset", "skipped", "missing_input", [],
          some ("Missing required inputs: " ++ joinOrUnknown
            ((if getS (pyOr (pyOr (ctx "snowflake_ls_name")
                (env "ADF_SNOWFLAKE_LINKED_SERVICE")) (some SNOWFLAKE_LS_DEFAULT)) ≠ ""
              then [] else ["snowflake_ls_name"]) ++
             (if truthy (pyOr (ctx "snowflake_schema") (env "SNOWFLAKE_SCHEMA")) = true
              then [] else ["snowflake_schema"]) ++
             (if truthy (pyOr (ctx "snowflake_table") (env "SNOWFLAKE_TABLE")) = true
              then [] else ["snowflake_table"])))⟩] ∧
      (auto_fix_prereqs ctx env report w).calls.all
        (fun c => !(c.1 == "sink_dataset")) = true) := by
  rw [auto_fix_prereqs_main ctx env report w hb1 hb2 hb3 hc]
  refine ⟨fun hmem hmiss => ?_, fun hmem hmiss => ?_,
    fun hmem hmiss => ?_, fun hmem hmiss => ?_⟩
  · rw [fix_blob_ls_skip _ _ _ _ w hmem hmiss]
    constructor
    · dsimp only
      rw [List.filter_append, List.filter_append, List.filter_append,
        filter_item_nil _ _ _ (fix_snowflake_ls_item_names _ _ _ w) (by decide),
        filter_item_nil _ _ _ (fix_source_ds_item_names _ _ _ _ _ w) (by decide),
        filter_item_nil _ _ _ (fix_sink_ds_item_names _ _ _ _ _ w) (by decide)]
      simp
    · dsimp only
      rw [List.all_eq_true]
      intro c hc
      simp only [List.nil_append, List.mem_append] at hc
      rcases hc with (hc | hc) | hc
      · rw [fix_snowflake_ls_call_names _ _ _ w c hc]
        decide
      · rw [fix_source_ds_call_names _ _ _ _ _ w c hc]
        decide
      · rw [fix_sink_ds_call_names _ _ _ _ _ w c hc]
        decide
  · rw [fix_snowflake_ls_skip _ _ _ w hmem hmiss]
    constructor
    · dsimp only
      rw [List.filter_append, List.filter_append, List.filter_append,
        filter_item_nil _ _ _ (fix_blob_ls_item_names _ _ _ _ w) (by decide),
        filter_item_nil _ _ _ (fix_source_ds_item_names _ _ _ _ _ w) (by decide),
        filter_item_nil _ _ _ (fix_sink_ds_item_names _ _ _ _ _ w) (by decide)]
      simp
    · dsimp only
      rw [List.all_eq_true]
      intro c hc
      simp only [List.append_nil, List.mem_append] at hc
      rcases hc with (hc | hc) | hc
      · rw [fix_blob_ls_call_names _ _ _ _ w c hc]
        decide
      · rw [fix_source_ds_call_names _ _ _ _ _ w c hc]
        decide
      · rw [fix_sink_ds_call_names _ _ _ _ _ w c hc]
        decide
  · rw [fix_source_ds_skip _ _ _ _ _ w hmem hmiss]
    constructor
    · dsimp only
      rw [List.filter_append, List.filter_append, List.filter_append,
        filter_item_nil _ _ _ (fix_blob_ls_item_names _ _ _ _ w) (by decide),
        filter_item_nil _ _ _ (fix_snowflake_ls_item_names _ _ _ w) (by decide),
        filter_item_nil _ _ _ (fix_sink_ds_item_names _ _ _ _ _ w) (by decide)]
      simp
    · dsimp only
      rw [List.all_eq_true]
      intro c hc
      simp only [List.append_nil, List.mem_append] at hc
      rcases hc with (hc | hc) | hc
      · rw [fix_blob_ls_call_names _ _ _ _ w c hc]
        decide
      · rw [fix_snowflake_ls_call_names _ _ _ w c hc]
        decide
      · rw [fix_sink_ds_call_names _ _ _ _ _ w c hc]
        decide
  · rw [fix_sink_ds_skip _ _ _ _ _ w hmem hmiss]
    constructor
    · dsimp only
      rw [List.filter_append, List.filter_append, List.filter_append,
        filter_item_nil _ _ _ (fix_blob_ls_item_names _ _ _ _ w) (by decide),
        filter_item_nil _ _ _ (fix_snowflake_ls_item_names _ _ _ w) (by decide),
        filter_item_nil _ _ _ (fix_source_ds_item_names _ _ _ _ _ w) (by decide)]
      simp
    · dsimp only
      rw [List.all_eq_true]
      intro c hc
      simp only [List.append_nil, List.mem_append] at hc
      rcases hc with (hc | hc) | hc
      · rw [fix_blob_ls_call_names _ _ _ _ w c hc]
        decide
      · rw [fix_snowflake_ls_call_names _ _ _ w c hc]
        decide
      · rw [fix_source_ds_call_names _ _ _ _ _ w c hc]
        decide

/-- Witness for claim C1: the amended statement run on a concrete context
that lacks the storage credentials while the blob linked service is
missing. -/
theorem claim_C1_witness :
    ((auto_fix_prereqs
        (fun k => if k = "subscription_id" then some "sub"
          else if k = "resource_group" then some "rg"
          else if k = "factory_name" then some "adf" else none)
        (fun _ => none)
        ⟨[], [mkMissing "blob_linked_service" "Create Blob LS" []], [],
          [mkMissing "blob_linked_service" "Create Blob LS" []]⟩
        ⟨Except.ok (), Except.ok (), Except.ok (), Except.ok (), Except.ok ()⟩).actions.filter
      (fun a => a.item == "blob_linked_service")) =
      [⟨"blob_linked_service", "skipped", "missing_input", [],
        some "Missing required inputs: storage_account_name, storage_account_key"⟩] ∧
    ((auto_fix_prereqs
        (fun k => if k = "subscription_id" then some "sub"
          else if k = "resource_group" then some "rg"
          else if k = "factory_name" then some "adf" else none)
        (fun _ => none)
        ⟨[], [mkMissing "blob_linked_service" "Create Blob LS" []], [],
          [mkMissing "blob_linked_service" "Create Blob LS" []]⟩
        ⟨Except.ok (), Except.ok (), Except.ok (), Except.ok (), Except.ok ()⟩).calls.all
      (fun c => !(c.1 == "blob_linked_service"))) = true := by
  have h := (claim_C1_autofix_missing_input
    (fun k => if k = "subscription_id" then some "sub"
      else if k = "resource_group" then some "rg"
      else if k = "factory_name" then some "adf" else none)
    (fun _ => none)
    ⟨[], [mkMissing "blob_linked_service" "Create Blob LS" []], [],
      [mkMissing "blob_linked_service" "Create Blob LS" []]⟩
    ⟨Except.ok (), Except.ok (), Except.ok (), Except.ok (), Except.ok ()⟩
    (by decide) (by decide) (by decide) rfl).1 (by decide) (by decide)
  exact ⟨h.1.trans (by decide), h.2⟩

/-- Claim C7: with any bootstrap identifier unresolved, the auto-fixer
short-circuits to anyFixed false and a single action with item bootstrap
and status skipped naming the missing identifiers, attempting no remote
operation (the result is independent of the remote-state oracle and its
call trace is empty). -/
theorem claim_C7_autofix_bootstrap (ctx env : String → Option String)
    (report : Report) (w : FixWorld)
    (h : truthy (pyOr (ctx "subscription_id") (env "AZURE_SUBSCRIPTION_ID")) = false ∨
      truthy (pyOr (ctx "resource_group") (env "AZURE_RESOURCE_GROUP")) = false ∨
      truthy (pyOr (ctx "factory_name") (env "AZURE_FACTORY_NAME")) = false) :
    auto_fix_prereqs ctx env report w =
      { fixed_any := false,
        actions := [⟨"bootstrap", "verify_context", "skipped", [],
          some ("Missing: " ++ strJoin ", "
            ((if truthy (pyOr (ctx "subscription_id") (env "AZURE_SUBSCRIPTION_ID"))
              then [] else ["subscription_id"]) ++
             (if truthy (pyOr (ctx "resource_group") (env "AZURE_RESOURCE_GROUP"))
              then [] else ["resource_group"]) ++
             (if truthy (pyOr (ctx "factory_name") (env "AZURE_FACTORY_NAME"))
              then [] else ["factory_name"])))⟩],
        calls := [] } := by
  have hne :
      ((if truthy (pyOr (ctx "subscription_id") (env "AZURE_SUBSCRIPTION_ID"))
          then ([] : List String) else ["subscription_id"]) ++
        (if truthy (pyOr (ctx "resource_group") (env "AZURE_RESOURCE_GROUP"))
          then ([] : List String) else ["resource_group"]) ++
        (if truthy (pyOr (ctx "factory_name") (env "AZURE_FACTORY_NAME"))
          then ([] : List String) else ["factory_name"])) ≠ [] := by
    rcases h with h | h | h <;> rw [h] <;>
      cases truthy (pyOr (ctx "subscription_id") (env "AZURE_SUBSCRIPTION_ID")) <;>
      cases truthy (pyOr (ctx "resource_group") (env "AZURE_RESOURCE_GROUP")) <;>
      cases truthy (pyOr (ctx "factory_name") (env "AZURE_FACTORY_NAME")) <;>
      simp
  simp only [auto_fix_prereqs]
  rw [if_pos hne]

/-- Witness for claim C7: a concrete empty context short-circuits the
auto-fixer to the single bootstrap action against a healthy remote state. -/
theorem claim_C7_witness :
    auto_fix_prereqs (fun _ => none) (fun _ => none) ⟨[], [], [], []⟩
        ⟨Except.ok (), Except.ok (), Except.ok (), Except.ok (), Except.ok ()⟩ =
      { fixed_any := false,
        actions := [⟨"bootstrap", "verify_context", "skipped", [],
          some "Missing: subscription_id, resource_group, factory_name"⟩],
        calls := [] } :=
  (claim_C7_autofix_bootstrap (fun _ => none) (fun _ => none) ⟨[], [], [], []⟩
    ⟨Except.ok (), Except.ok (), Except.ok (), Except.ok (), Except.ok ()⟩
    (Or.inl (by decide))).trans (by decide)

/-- Claim C5: the pipeline artifact produced by the generator always passes
the structural validator: for every schema-shaped pipeline config and every
generation timestamp, validate applied to the output of generate returns
ok = true. -/
theorem claim_C5_generate_then_validate_ok (config : PipelineConfig) (now : String) :
    (validate_pipeline_hooks (create_copy_activity_pipeline config now)).1 = true := by
  simp [validate_pipeline_hooks, create_copy_activity_pipeline, List.dedup]

/-- Claim C8: the secret-bearing fields of the resolved context depend only
on the request payload and the environment (two-run noninterference in the
profile files); when absent from both payload and environment they stay
unset instead of being filled from profiles; and every profile-backed
non-secret field follows the precedence payload value, then truthy
environment value, then profile value. -/
theorem claim_C8_secret_noninterference :
    (∀ payload env acct uc acct2 uc2 : String → Option String,
      merge_context payload env acct uc "storage_account_key" =
        merge_context payload env acct2 uc2 "storage_account_key" ∧
      merge_context payload env acct uc "snowflake_connection_string" =
        merge_context payload env acct2 uc2 "snowflake_connection_string") ∧
    (∀ payload env acct uc : String → Option String,
      payload "storage_account_key" = none →
      env "STORAGE_ACCOUNT_KEY" = none →
      merge_context payload env acct uc "storage_account_key" = none) ∧
    (∀ payload env acct uc : String → Option String,
      payload "snowflake_connection_string" = none →
      env "SNOWFLAKE_CONNECTION_STRING" = none →
      merge_context payload env acct uc "snowflake_connection_string" = none) ∧
    (∀ payload env acct uc : String → Option String,
      ∀ k ev : String, ∀ b : Bool, ∀ pk : String,
      (k, ev, b, pk) ∈ profileBackedFields →
      (∀ v, payload k = some v → merge_context payload env acct uc k = some v) ∧
      (payload k = none → truthy (env ev) = true →
        merge_context payload env acct uc k = env ev) ∧
      (payload k = none → truthy (env ev) = false →
        merge_context payload env acct uc k = (if b then acct else uc) pk)) := by
  refine ⟨?_, ?_, ?_, ?_⟩
  · intro payload env acct uc acct2 uc2
    constructor
    · cases hp : payload "storage_account_key" <;>
        (simp only [merge_context]; rw [hp]) <;> rfl
    · cases hp : payload "snowflake_connection_string" <;>
        (simp only [merge_context]; rw [hp]) <;> rfl
  · intro payload env acct uc hp he
    simp only [merge_context]
    rw [hp]
    exact he
  · intro payload env acct uc hp he
    simp only [merge_context]
    rw [hp]
    exact he
  · intro payload env acct uc k ev b pk hmem
    fin_cases hmem <;>
      refine ⟨fun v hv => ?_, fun hn ht => ?_, fun hn ht => ?_⟩ <;>
      simp only [merge_context] <;>
      first
        | (rw [hv])
        | (rw [hn]; exact pyOr_truthy _ _ ht)
        | (rw [hn]; exact pyOr_falsy _ _ ht)

/-- Witness for claim C8: a concrete profile-backed field resolves from the
environment when the payload lacks it and the environment value is truthy. -/
theorem claim_C8_witness :
    merge_context (fun _ => none)
        (fun k => if k = "BLOB_CONTAINER" then some "salescont" else none)
        (fun _ => none) (fun _ => some "profilecont") "container" =
      some "salescont" :=
  ((claim_C8_secret_noninterference.2.2.2 (fun _ => none)
      (fun k => if k = "BLOB_CONTAINER" then some "salescont" else none)
      (fun _ => none) (fun _ => some "profilecont")
      "container" "BLOB_CONTAINER" false "blob_container"
      (by decide)).2.1 rfl (by decide)).trans (by decide)

/-- Helper: a truthy connection string and a healthy or existing Snowflake
linked service make the ensure step succeed without an issue. -/
theorem ensure_snowflake_ok (w : DeployWorld) (ls : String)
    (cs : Option String) (hcs : truthy cs = true)
    (hsnow : w.snowflake_ls_exists = true ∨
      w.create_snowflake_ls = Except.ok ()) :
    ensure_snowflake_linked_service w ls cs = .ok (true, none) := by
  unfold ensure_snowflake_linked_service
  rcases hsnow with h | h
  · rw [if_pos h]
  · cases hex : w.snowflake_ls_exists
    · simp [hcs, h]
    · rfl

/-- Helper: a healthy blob create call means the blob ensure step never
raises. -/
theorem ensure_blob_ls_no_raise (w : DeployWorld) (ls : String)
    (san key : Option String) (hok : w.create_blob_ls = Except.ok ()) :
    ∃ v, ensure_blob_linked_service w ls san key = .ok v := by
  unfold ensure_blob_linked_service
  cases hex : w.blob_ls_exists
  · by_cases hm : truthy san = false ∨ truthy key = false
    · exact ⟨_, by rw [if_neg (show ¬(false = true) by simp), if_pos hm]⟩
    · exact ⟨_, by rw [if_neg (show ¬(false = true) by simp), if_neg hm, hok]⟩
  · exact ⟨_, rfl⟩

/-- Claim C2 counterexample: with every identifier present but the
Snowflake connection string absent, deploy raises a RuntimeError (an
uncaught exception) instead of returning a blocked result. -/
theorem claim_C2_counterexample :
    deploy_to_adf (some ⟨some "Pipe", none⟩) ⟨none, none, none, none⟩
      (fun k => if k = "subscription_id" then some "sub"
        else if k = "resource_group" then some "rg"
        else if k = "factory_name" then some "adf"
        else if k = "storage_account_name" then some "sa"
        else if k = "storage_account_key" then some "key" else none)
      (fun _ => none)
      ⟨true, true, Except.ok (), Except.ok (), true, true, Except.ok (),
        Except.ok (), Except.ok "ok", Except.ok (), Except.ok ()⟩ =
      Except.error "Snowflake connection string not provided. Set SNOWFLAKE_CONNECTION_STRING in /ui/secrets or pass snowflake_connection_string in context." := by
  rfl

/-- Claim C2 (amended): with resolvable bootstrap identifiers, when the
blob storage credentials are missing while the blob linked service is
absent remotely (and the Snowflake connection string is present), deploy
fails fast by returning a blocked result naming the missing credentials
and never raises; but when the Snowflake connection string is missing,
deploy raises a RuntimeError instead of returning a blocked result. -/
theorem claim_C2_deploy_fail_fast (doc : PipelineDoc)
    (config : PipelineConfig) (ctx env : String → Option String)
    (w : DeployWorld)
    (hb1 : truthy (pyOr (ctx "subscription_id") (env "AZURE_SUBSCRIPTION_ID")) = true)
    (hb2 : truthy (pyOr (ctx "resource_group") (env "AZURE_RESOURCE_GROUP")) = true)
    (hb3 : truthy (pyOr (ctx "factory_name") (env "AZURE_FACTORY_NAME")) = true) :
    (w.blob_ls_exists = false →
      (truthy (pyOr (ctx "storage_account_name") (env "STORAGE_ACCOUNT_NAME")) = false ∨
        truthy (pyOr (ctx "storage_account_key") (env "STORAGE_ACCOUNT_KEY")) = false) →
      truthy (pyOr (ctx "snowflake_connection_string")
        (env "SNOWFLAKE_CONNECTION_STRING")) = true →
      (w.snowflake_ls_exists = true ∨ w.create_snowflake_ls = Except.ok ()) →
      deploy_to_adf (some doc) config ctx env w =
        .ok { status := "blocked",
              reason := some "missing_credentials_or_names",
              issues := [⟨"missing_blob_credentials",
                ["storage_account_name", "storage_key"],
                "Blob Linked Service is missing and needs Storage Account credentials.",
                some (getS (pyOr (pyOr
                  (config.source.getD ⟨none, none, none, none⟩).linked_service
                  (env "ADF_BLOB_LINKED_SERVICE")) (some BLOB_LS_DEFAULT)))⟩],
              pipeline_name := none,
              result := none,
              trigger_result := none }) ∧
    (truthy (pyOr (ctx "snowflake_connection_string")
        (env "SNOWFLAKE_CONNECTION_STRING")) = false →
      w.create_blob_ls = Except.ok () →
      deploy_to_adf (some doc) config ctx env w =
        .error "Snowflake connection string not provided. Set SNOWFLAKE_CONNECTION_STRING in /ui/secrets or pass snowflake_connection_string in context.") := by
  constructor
  · intro hnx hmiss hcs hsnow
    have hbl : ensure_blob_linked_service w
        (getS (pyOr (pyOr (config.source.getD ⟨none, none, none, none⟩).linked_service
          (env "ADF_BLOB_LINKED_SERVICE")) (some BLOB_LS_DEFAULT)))
        (pyOr (ctx "storage_account_name") (env "STORAGE_ACCOUNT_NAME"))
        (pyOr (ctx "storage_account_key") (env "STORAGE_ACCOUNT_KEY")) =
        .ok (false, some ⟨"missing_blob_credentials",
          ["storage_account_name", "storage_key"],
          "Blob Linked Service is missing and needs Storage Account credentials.",
          none⟩) := by
      unfold ensure_blob_linked_service
      rw [if_neg (by simp [hnx]), if_pos hmiss]
    have hls : ensure_linked_services_from_config config ctx env w =
        .ok (false, [⟨"missing_blob_credentials",
          ["storage_account_name", "storage_key"],
          "Blob Linked Service is missing and needs Storage Account credentials.",
          some (getS (pyOr (pyOr
            (config.source.getD ⟨none, none, none, none⟩).linked_service
            (env "ADF_BLOB_LINKED_SERVICE")) (some BLOB_LS_DEFAULT)))⟩]) := by
      simp only [ensure_linked_services_from_config]
      rw [hbl]
      dsimp only
      rw [if_neg (by simp [hcs]),
        ensure_snowflake_ok w _ _ hcs hsnow]
      rfl
    simp only [deploy_to_adf]
    rw [if_neg (not_not_intro ⟨hb1, hb2, hb3⟩), hls]
    rfl
  · intro hcsf hok
    obtain ⟨v, hbl⟩ := ensure_blob_ls_no_raise w
      (getS (pyOr (pyOr (config.source.getD ⟨none, none, none, none⟩).linked_service
        (env "ADF_BLOB_LINKED_SERVICE")) (some BLOB_LS_DEFAULT)))
      (pyOr (ctx "storage_account_name") (env "STORAGE_ACCOUNT_NAME"))
      (pyOr (ctx "storage_account_key") (env "STORAGE_ACCOUNT_KEY")) hok
    obtain ⟨ok1, issue1⟩ := v
    have hls : ensure_linked_services_from_config config ctx env w =
        .error "Snowflake connection string not provided. Set SNOWFLAKE_CONNECTION_STRING in /ui/secrets or pass snowflake_connection_string in context." := by
      simp only [ensure_linked_services_from_config]
      rw [hbl]
      dsimp only
      rw [if_pos hcsf]
    simp only [deploy_to_adf]
    rw [if_neg (not_not_intro ⟨hb1, hb2, hb3⟩), hls]

/-- Witness for claim C2: a concrete context with the storage credentials
absent, the blob linked service missing remotely, and the connection
string present yields the blocked result. -/
theorem claim_C2_witness :
    deploy_to_adf (some ⟨some "Pipe", none⟩) ⟨none, none, none, none⟩
      (fun k => if k = "subscription_id" then some "sub"
        else if k = "resource_group" then some "rg"
        else if k = "factory_name" then some "adf"
        else if k = "snowflake_connection_string" then some "jdbc" else none)
      (fun _ => none)
      ⟨false, true, Except.ok (), Except.ok (), true, true, Except.ok (),
        Except.ok (), Except.ok "ok", Except.ok (), Except.ok ()⟩ =
      Except.ok
        { status := "blocked",
          reason := some "missing_credentials_or_names",
          issues := [⟨"missing_blob_credentials",
            ["storage_account_name", "storage_key"],
            "Blob Linked Service is missing and needs Storage Account credentials.",
            some "AzureBlobStorageLinkedService"⟩],
          pipeline_name := none,
          result := none,
          trigger_result := none } := by
  have h := (claim_C2_deploy_fail_fast ⟨some "Pipe", none⟩ ⟨none, none, none, none⟩
    (fun k => if k = "subscription_id" then some "sub"
      else if k = "resource_group" then some "rg"
      else if k = "factory_name" then some "adf"
      else if k = "snowflake_connection_string" then some "jdbc" else none)
    (fun _ => none)
    ⟨false, true, Except.ok (), Except.ok (), true, true, Except.ok (),
      Except.ok (), Except.ok "ok", Except.ok (), Except.ok ()⟩
    (by decide) (by decide) (by decide)).1 rfl (Or.inl (by decide))
    (by decide) (Or.inl rfl)
  exact h.trans (by rfl)

/-- Claim C3 counterexample: on the schedule object with an absent
`frequency` and `time` equal to "01:00", normalization yields the string
"once@01:00", not "once" as the claim states for an absent frequency. -/
theorem claim_C3_counterexample :
    normalize_schedule_in_config (some (.obj none (some "01:00"))) =
      some (.str "once@01:00") ∧
    normalize_schedule_in_config (some (.obj none (some "01:00"))) ≠
      some (.str "once") := by
  decide

/-- Claim C3 (amended): for a schedule object with trimmed subfields, the
normalized schedule is "f@t" when both frequency f and time t are present
and non-empty, "f" when the time is empty or absent, and, when the
frequency is absent, "once@t" for a non-empty time t and "once" otherwise;
a schedule that is already a string is returned unchanged. -/
theorem claim_C3_schedule_normalization :
    (∀ f t : String, f = strTrim f → t = strTrim t → f ≠ "" → t ≠ "" →
      normalize_schedule_in_config (some (.obj (some f) (some t))) =
        some (.str (f ++ "@" ++ t))) ∧
    (∀ f : String, f = strTrim f → f ≠ "" →
      normalize_schedule_in_config (some (.obj (some f) none)) = some (.str f) ∧
      normalize_schedule_in_config (some (.obj (some f) (some ""))) =
        some (.str f)) ∧
    (∀ t : String, t = strTrim t → t ≠ "" →
      normalize_schedule_in_config (some (.obj none (some t))) =
        some (.str ("once@" ++ t))) ∧
    (normalize_schedule_in_config (some (.obj none none)) = some (.str "once") ∧
      normalize_schedule_in_config (some (.obj none (some ""))) =
        some (.str "once")) ∧
    (∀ s : String, normalize_schedule_in_config (some (.str s)) =
      some (.str s)) ∧
    normalize_schedule_in_config none = none := by
  have h0 : strTrim "" = "" := by decide
  have h1 : strTrim "once" = "once" := by decide
  refine ⟨?_, ?_, ?_, by decide, fun s => rfl, rfl⟩
  · intro f t hf ht hfne htne
    simp only [normalize_schedule_in_config, pyOrS]
    rw [if_neg hfne, if_neg htne, ← hf, ← ht, if_pos htne]
  · intro f hf hfne
    constructor
    · simp only [normalize_schedule_in_config, pyOrS]
      rw [if_neg hfne, ← hf]
      simp [h0]
    · simp only [normalize_schedule_in_config, pyOrS]
      rw [if_neg hfne, ← hf]
      simp [h0]
  · intro t ht htne
    simp only [normalize_schedule_in_config, pyOrS]
    rw [if_neg htne, ← ht, if_pos htne, h1,
      (by decide : ("once" ++ "@" : String) = "once@")]

/-- Witness for claim C3: a concrete run of the amended statement. -/
theorem claim_C3_witness :
    normalize_schedule_in_config (some (.obj (some "daily") (some "01:30"))) =
      some (.str "daily@01:30") :=
  claim_C3_schedule_normalization.1 "daily" "01:30" (by decide) (by decide)
    (by decide) (by decide)

/-- Claim C4: schedule-string parsing is a total function with
"daily@01:30" mapped to hour 1 minute 30, the sentinel strings and the
empty string mapped to no trigger, "daily" mapped to midnight,
"daily@99:99" deterministically clamped to hour 23 minute 59, and every
"daily@" suffix that does not parse as two integers mapped to the
midnight fallback. -/
theorem claim_C4_schedule_parsing :
    parse_schedule_string "daily@01:30" = some ⟨"daily", 1, 30⟩ ∧
    parse_schedule_string "once" = none ∧
    parse_schedule_string "manual" = none ∧
    parse_schedule_string "off" = none ∧
    parse_schedule_string "disabled" = none ∧
    parse_schedule_string "none" = none ∧
    parse_schedule_string "" = none ∧
    parse_schedule_string "daily" = some ⟨"daily", 0, 0⟩ ∧
    parse_schedule_string "daily@99:99" = some ⟨"daily", 23, 59⟩ ∧
    (∀ s : String,
      strStartsWith "daily@" (strLower (strTrim s)) = true →
      parse_two_ints (strDrop 6 (strLower (strTrim s))) = none →
      parse_schedule_string s = some ⟨"daily", 0, 0⟩) := by
  refine ⟨by decide, by decide, by decide, by decide, by decide, by decide,
    by decide, by decide, by decide, ?_⟩
  intro s hpre hparse
  by_cases hs : s = ""
  · subst hs
    exact absurd hpre (by decide)
  · unfold parse_schedule_string
    rw [if_neg hs]
    have hsent : strLower (strTrim s) ∉
        (["once", "manual", "off", "disabled", "none"] : List String) := by
      intro hmem
      simp only [List.mem_cons, List.mem_singleton, List.not_mem_nil,
        or_false] at hmem
      rcases hmem with h | h | h | h | h <;>
        (rw [h] at hpre; exact absurd hpre (by decide))
    have hdaily : strLower (strTrim s) ≠ "daily" := by
      intro h
      rw [h] at hpre
      exact absurd hpre (by decide)
    rw [if_neg hsent, if_neg hdaily, if_pos hpre, hparse]

/-- Witness for claim C4: a concrete unparsable suffix falls back to the
midnight trigger. -/
theorem claim_C4_witness :
    parse_schedule_string "daily@xx" = some ⟨"daily", 0, 0⟩ :=
  claim_C4_schedule_parsing.2.2.2.2.2.2.2.2.2 "daily@xx" (by decide) (by decide)

/-- Claim C10: every schedule string that is non-empty and, after trimming
and lowercasing, is none of the sentinel strings, is not "daily", and does
not start with "daily@", is parsed to no trigger specification at all. -/
theorem claim_C10_nondaily_no_trigger :
    ∀ s : String, s ≠ "" →
      strLower (strTrim s) ∉ (["once", "manual", "off", "disabled", "none"] : List String) →
      strLower (strTrim s) ≠ "daily" →
      strStartsWith "daily@" (strLower (strTrim s)) = false →
      parse_schedule_string s = none := by
  intro s hs hsent hdaily hpre
  unfold parse_schedule_string
  rw [if_neg hs, if_neg hsent, if_neg hdaily, hpre]
  simp

/-- Witness for claim C10: the string "hourly" produces no trigger. -/
theorem claim_C10_witness : parse_schedule_string "hourly" = none :=
  claim_C10_nondaily_no_trigger "hourly" (by decide) (by decide) (by decide)
    (by decide)

end AutoFlowAI
